import Mathlib

/-!
Verification development for the dynamic GPU-uniform binding system of
te-shader-play.  The Rust sources are shallowly embedded:

* machine integers `u32` are modelled as `Nat` (values `< 2^32`; the
  little-endian byte encoding masks each byte), `i32` as `Int`
  (two's-complement wrapping made explicit where the source wraps);
* `f32` payloads are modelled by their 32-bit pattern (a `Nat`): the byte
  encoding of an `f32` is fully determined by that pattern.  Host
  floating-point computations (numeric conversions between `f32` and the
  integer types, the transform/camera matrix math) are parameters of the
  embedding, collected in the `FloatOps` structure; every definition uses
  a `FloatOps` argument exactly where the source performs such an
  operation, and theorems quantify over it;
* fallible code (Rust `?`, panicking `unwrap`/`assert!`/`unreachable`,
  out-of-bounds device writes) returns `Option`, `none` marking the abort.
-/

set_option maxRecDepth 8192

/-- Little-endian byte encoding of a `u32` value, one `Nat` per byte
(models `u32::to_le_bytes`). -/
def u32le (n : Nat) : List Nat :=
  [n % 256, n / 256 % 256, n / 65536 % 256, n / 16777216 % 256]

/-- Two's-complement 32-bit pattern of an `i32` value. -/
def i32bits (v : Int) : Nat := (v % 4294967296).toNat

/-- Little-endian byte encoding of an `i32` value (models `i32::to_le_bytes`). -/
def i32le (v : Int) : List Nat := u32le (i32bits v)

/-- Little-endian byte encoding of an `f32` given by its bit pattern
(models `f32::to_le_bytes`). -/
def f32le (bits : Nat) : List Nat := u32le bits

theorem u32le_length (n : Nat) : (u32le n).length = 4 := rfl

theorem f32le_length (b : Nat) : (f32le b).length = 4 := rfl

/-- Scalar subtype tag, from `uniform_types/scalar.rs` (`enum ScalarType`). -/
inductive ScalarType where
  | U32
  | I32
  | F32
deriving DecidableEq, Repr

/-- Vector subtype tag, from `uniform_types/vec.rs` (`enum VecType`). -/
inductive VecType where
  | Vec2 (s : ScalarType)
  | Vec3 (s : ScalarType)
  | Vec4 (s : ScalarType)
deriving DecidableEq, Repr

/-- Matrix shape tag (columns x rows), from `uniform_types/matrix.rs`
(`enum MatrixType`). -/
inductive MatrixType where
  | M2x2
  | M2x3
  | M2x4
  | M3x2
  | M3x3
  | M3x4
  | M4x2
  | M4x3
  | M4x4
deriving DecidableEq, Repr

/-- Uniform type selector, from `uniform_types` (`enum UniformType`,
current version including the `Transform` variant used by
`scalar.rs::cast_to`). -/
inductive UniformType where
  | Scalar (s : ScalarType)
  | Vec (v : VecType)
  | Matrix (m : MatrixType)
  | Transform
deriving DecidableEq, Repr

/-- Scalar uniform value, from `uniform_types/scalar.rs`
(`enum ScalarUniformValue`).  `U32` carries the `Nat` value, `I32` the
`Int` value, `F32` the 32-bit pattern. -/
inductive ScalarUniformValue where
  | U32 (v : Nat)
  | I32 (v : Int)
  | F32 (bits : Nat)
deriving DecidableEq, Repr

/-- Two-component vector value, from `uniform_types/vec.rs`
(`enum Vec2UniformValue`). -/
inductive Vec2UniformValue where
  | U32 (x y : Nat)
  | I32 (x y : Int)
  | F32 (x y : Nat)
deriving DecidableEq, Repr

/-- Three-component vector value, from `uniform_types/vec.rs`
(`enum Vec3UniformValue`). -/
inductive Vec3UniformValue where
  | U32 (x y z : Nat)
  | I32 (x y z : Int)
  | F32 (x y z : Nat)
deriving DecidableEq, Repr

/-- Four-component vector value, from `uniform_types/vec.rs`
(`enum Vec4UniformValue`). -/
inductive Vec4UniformValue where
  | U32 (x y z w : Nat)
  | I32 (x y z w : Int)
  | F32 (x y z w : Nat)
deriving DecidableEq, Repr

/-- Vector uniform value, from `uniform_types/vec.rs`
(`enum VectorUniformValue`). -/
inductive VectorUniformValue where
  | Vec2 (v : Vec2UniformValue)
  | Vec3 (v : Vec3UniformValue)
  | Vec4 (v : Vec4UniformValue)
deriving DecidableEq, Repr

/-- Two-row matrix column of `f32` bit patterns, from
`uniform_types/matrix.rs` (`struct Column2`). -/
structure Column2 where
  c0 : Nat
  c1 : Nat
deriving DecidableEq, Repr

/-- Three-row matrix column, from `uniform_types/matrix.rs` (`struct Column3`). -/
structure Column3 where
  c0 : Nat
  c1 : Nat
  c2 : Nat
deriving DecidableEq, Repr

/-- Four-row matrix column, from `uniform_types/matrix.rs` (`struct Column4`). -/
structure Column4 where
  c0 : Nat
  c1 : Nat
  c2 : Nat
  c3 : Nat
deriving DecidableEq, Repr

/-- Matrix uniform value (column-major, `Columns x Rows`), from
`uniform_types/matrix.rs` (`enum MatrixUniformValue`). -/
inductive MatrixUniformValue where
  | M2x2 (a b : Column2)
  | M2x3 (a b : Column3)
  | M2x4 (a b : Column4)
  | M3x2 (a b c : Column2)
  | M3x3 (a b c : Column3)
  | M3x4 (a b c : Column4)
  | M4x2 (a b c d : Column2)
  | M4x3 (a b c d : Column3)
  | M4x4 (a b c d : Column4)
deriving DecidableEq, Repr

/-- Four `f32` bit patterns, modelling `cgmath::Vector4<f32>`. -/
structure Vec4F where
  x : Nat
  y : Nat
  z : Nat
  w : Nat
deriving DecidableEq, Repr

/-- Four columns of four `f32` bit patterns, modelling
`cgmath::Matrix4<f32>` (fields `x`..`w` are the columns). -/
structure Matrix4 where
  x : Vec4F
  y : Vec4F
  z : Vec4F
  w : Vec4F
deriving DecidableEq, Repr

/-- Three `f32` bit patterns, modelling `cgmath::Vector3<f32>` /
`cgmath::Point3<f32>`. -/
structure Point3F where
  x : Nat
  y : Nat
  z : Nat
deriving DecidableEq, Repr

/-- Quaternion of `f32` bit patterns, modelling `cgmath::Quaternion<f32>`
(`s` the scalar part, `v` the vector part). -/
structure QuatF where
  s : Nat
  vx : Nat
  vy : Nat
  vz : Nat
deriving DecidableEq, Repr

/-- Transform uniform value, from `uniform_types/transform.rs`
(`struct TransformUniformValue`). -/
structure TransformUniformValue where
  translation : Point3F
  xScale : Nat
  yScale : Nat
  zScale : Nat
  rotation : QuatF
deriving DecidableEq, Repr

/-- Default transform (identity): zero translation, unit scales, the
all-zero quaternion, from `transform.rs` (`impl Default`).  `1.0_f32`
has bit pattern `0x3F800000 = 1065353216`. -/
def TransformUniformValue.defaultValue : TransformUniformValue :=
  { translation := ⟨0, 0, 0⟩
    xScale := 1065353216
    yScale := 1065353216
    zScale := 1065353216
    rotation := ⟨0, 0, 0, 0⟩ }

/-- Built-in uniform value: the elapsed-time counter or the host camera,
from the `uniform_types` module root (`enum BuiltinValue`, current version
with the `Camera` variant used throughout `imgui_state.rs`). -/
inductive BuiltinValue where
  | Time
  | Camera (position : Point3F) (yaw pitch : Nat) (enabled : Bool)
deriving DecidableEq, Repr

/-- Uniform value over the five families, from the `uniform_types` module
root (`enum UniformValue`, current version with `Transform`). -/
inductive UniformValue where
  | BuiltIn (b : BuiltinValue)
  | Scalar (s : ScalarUniformValue)
  | Vector (v : VectorUniformValue)
  | Matrix (m : MatrixUniformValue)
  | Transform (t : TransformUniformValue)
deriving DecidableEq, Repr

/-- Host camera data resolved to its packed matrices, from
`imgui_state.rs` (`struct CameraUniform`). -/
structure CameraUniform where
  position : Point3F
  viewMatrix : Matrix4
  projectionMatrix : Matrix4
  inverseViewMatrix : Matrix4
  inverseProjectionMatrix : Matrix4
deriving DecidableEq, Repr

/-- Host floating-point computations that the embedding treats as
parameters.  Each field corresponds to an operation the source performs
on `f32`/`f64` values whose IEEE-754 semantics are outside the
embedding; no theorem below depends on their behaviour. -/
structure FloatOps where
  /-- Bit pattern of `v as f32` for a `u32` value `v`. -/
  u32ToF32 : Nat → Nat
  /-- Bit pattern of `v as f32` for an `i32` value `v`. -/
  i32ToF32 : Int → Nat
  /-- Value of `v as i32` (saturating float-to-int cast) for an `f32`
  with bit pattern `v`. -/
  f32ToI32 : Nat → Int
  /-- Bit pattern of `v + 1.0` for an `f32` with bit pattern `v`. -/
  f32AddOne : Nat → Nat
  /-- Bit pattern of `v - 1.0` for an `f32` with bit pattern `v`. -/
  f32SubOne : Nat → Nat
  /-- Bit pattern of `v as f64 as f32` for an integer-valued JSON number
  `v` (used by the persistence decoders). -/
  f64ToF32 : Int → Nat
  /-- Resolved matrix `Matrix4::from_translation(t) * Matrix4::from(rot) *
  Matrix4::from_nonuniform_scale(sx, sy, sz)` of a transform value
  (`transform.rs::to_le_bytes`). -/
  resolveTransform : TransformUniformValue → Matrix4
  /-- Camera matrices computed by the host for a `Camera` built-in
  (view/projection and their inverses; identity matrices when disabled). -/
  cameraUniformOf : Point3F → Nat → Nat → Bool → CameraUniform

/-- Trivial instantiation of the host float operations, used by concrete
witnesses (no theorem depends on the choice). -/
def trivOps : FloatOps :=
  { u32ToF32 := fun _ => 0
    i32ToF32 := fun _ => 0
    f32ToI32 := fun _ => 0
    f32AddOne := fun _ => 0
    f32SubOne := fun _ => 0
    f64ToF32 := fun _ => 0
    resolveTransform := fun _ => ⟨⟨0, 0, 0, 0⟩, ⟨0, 0, 0, 0⟩, ⟨0, 0, 0, 0⟩, ⟨0, 0, 0, 0⟩⟩
    cameraUniformOf := fun p _ _ _ =>
      { position := p
        viewMatrix := ⟨⟨0, 0, 0, 0⟩, ⟨0, 0, 0, 0⟩, ⟨0, 0, 0, 0⟩, ⟨0, 0, 0, 0⟩⟩
        projectionMatrix := ⟨⟨0, 0, 0, 0⟩, ⟨0, 0, 0, 0⟩, ⟨0, 0, 0, 0⟩, ⟨0, 0, 0, 0⟩⟩
        inverseViewMatrix := ⟨⟨0, 0, 0, 0⟩, ⟨0, 0, 0, 0⟩, ⟨0, 0, 0, 0⟩, ⟨0, 0, 0, 0⟩⟩
        inverseProjectionMatrix := ⟨⟨0, 0, 0, 0⟩, ⟨0, 0, 0, 0⟩, ⟨0, 0, 0, 0⟩, ⟨0, 0, 0, 0⟩⟩ } }

/-- Byte encoding of a scalar value, from `scalar.rs::to_le_bytes`. -/
def ScalarUniformValue.toLeBytes : ScalarUniformValue → List Nat
  | .U32 s => u32le s
  | .I32 s => i32le s
  | .F32 s => f32le s

/-- Byte encoding of a two-component vector, from `vec.rs::to_le_bytes`
(`Vec2UniformValue`). -/
def Vec2UniformValue.toLeBytes : Vec2UniformValue → List Nat
  | .U32 x y => u32le x ++ u32le y
  | .I32 x y => i32le x ++ i32le y
  | .F32 x y => f32le x ++ f32le y

/-- Byte encoding of a three-component vector, from `vec.rs::to_le_bytes`
(`Vec3UniformValue`): the three components, no padding. -/
def Vec3UniformValue.toLeBytes : Vec3UniformValue → List Nat
  | .U32 x y z => u32le x ++ u32le y ++ u32le z
  | .I32 x y z => i32le x ++ i32le y ++ i32le z
  | .F32 x y z => f32le x ++ f32le y ++ f32le z

/-- Byte encoding of a four-component vector, from `vec.rs::to_le_bytes`
(`Vec4UniformValue`). -/
def Vec4UniformValue.toLeBytes : Vec4UniformValue → List Nat
  | .U32 x y z w => u32le x ++ u32le y ++ u32le z ++ u32le w
  | .I32 x y z w => i32le x ++ i32le y ++ i32le z ++ i32le w
  | .F32 x y z w => f32le x ++ f32le y ++ f32le z ++ f32le w

/-- Byte encoding of a vector value, from `vec.rs::to_le_bytes`
(`VectorUniformValue`). -/
def VectorUniformValue.toLeBytes : VectorUniformValue → List Nat
  | .Vec2 v => v.toLeBytes
  | .Vec3 v => v.toLeBytes
  | .Vec4 v => v.toLeBytes

/-- Byte encoding of a two-row column, from `matrix.rs` (`MatrixColumn for
Column2`). -/
def Column2.toLeBytes (c : Column2) : List Nat := f32le c.c0 ++ f32le c.c1

/-- Byte encoding of a three-row column, from `matrix.rs` (`MatrixColumn
for Column3`): three `f32`s, 12 bytes, no alignment padding. -/
def Column3.toLeBytes (c : Column3) : List Nat :=
  f32le c.c0 ++ f32le c.c1 ++ f32le c.c2

/-- Byte encoding of a four-row column, from `matrix.rs` (`MatrixColumn
for Column4`). -/
def Column4.toLeBytes (c : Column4) : List Nat :=
  f32le c.c0 ++ f32le c.c1 ++ f32le c.c2 ++ f32le c.c3

/-- Byte encoding of a matrix value: its columns concatenated, from
`matrix.rs::to_le_bytes`. -/
def MatrixUniformValue.toLeBytes : MatrixUniformValue → List Nat
  | .M2x2 a b => a.toLeBytes ++ b.toLeBytes
  | .M2x3 a b => a.toLeBytes ++ b.toLeBytes
  | .M2x4 a b => a.toLeBytes ++ b.toLeBytes
  | .M3x2 a b c => a.toLeBytes ++ b.toLeBytes ++ c.toLeBytes
  | .M3x3 a b c => a.toLeBytes ++ b.toLeBytes ++ c.toLeBytes
  | .M3x4 a b c => a.toLeBytes ++ b.toLeBytes ++ c.toLeBytes
  | .M4x2 a b c d => a.toLeBytes ++ b.toLeBytes ++ c.toLeBytes ++ d.toLeBytes
  | .M4x3 a b c d => a.toLeBytes ++ b.toLeBytes ++ c.toLeBytes ++ d.toLeBytes
  | .M4x4 a b c d => a.toLeBytes ++ b.toLeBytes ++ c.toLeBytes ++ d.toLeBytes

/-- Byte encoding of a `Vector4<f32>`, from `transform.rs` (`impl Byteable
for Vector4<f32>`): the four components chained, 16 bytes. -/
def Vec4F.toLeBytes (v : Vec4F) : List Nat :=
  f32le v.x ++ f32le v.y ++ f32le v.z ++ f32le v.w

/-- Byte encoding the source gives a `Matrix4<f32>` in `transform.rs`
(`impl Byteable for Matrix4<f32>`): it returns `self.x.to_le_bytes()`,
i.e. only the FIRST column of the matrix — 16 bytes, not 64. -/
def Matrix4.byteableToLeBytes (m : Matrix4) : List Nat := m.x.toLeBytes

/-- Byte encoding of a transform value, from
`transform.rs::to_le_bytes`: resolve `translation * rotation * scale` to
a `Matrix4` (host float math, a `FloatOps` parameter) and serialize it
through `Byteable for Matrix4`. -/
def TransformUniformValue.toLeBytes (ops : FloatOps)
    (t : TransformUniformValue) : List Nat :=
  (ops.resolveTransform t).byteableToLeBytes

/-- Iterator over the bytes of a `Vector4<f32>`, from `imgui_state.rs`
(`fn get_vec4_bytes`): all four components. -/
def getVec4Bytes (v : Vec4F) : List Nat :=
  f32le v.x ++ f32le v.y ++ f32le v.z ++ f32le v.w

/-- Iterator over the bytes of a `Matrix4<f32>`, from `imgui_state.rs`
(`fn get_matrix4_bytes`): all four columns, 64 bytes. -/
def getMatrix4Bytes (m : Matrix4) : List Nat :=
  getVec4Bytes m.x ++ getVec4Bytes m.y ++ getVec4Bytes m.z ++ getVec4Bytes m.w

/-- Byte encoding of the resolved camera data, from
`imgui_state.rs::CameraUniform::to_le_bytes`: position (3 `f32`s plus 4
alignment-padding zero bytes) followed by the PROJECTION matrix, the view
matrix, the inverse view matrix and the inverse projection matrix. -/
def CameraUniform.toLeBytes (c : CameraUniform) : List Nat :=
  (f32le c.position.x ++ f32le c.position.y ++ f32le c.position.z
      ++ [0, 0, 0, 0])
    ++ getMatrix4Bytes c.projectionMatrix
    ++ getMatrix4Bytes c.viewMatrix
    ++ getMatrix4Bytes c.inverseViewMatrix
    ++ getMatrix4Bytes c.inverseProjectionMatrix

/-- Byte encoding of a built-in value.  `Time` encodes the initial
counter `0u32` (the per-frame value is written separately by
`update_time`), from the `uniform_types` module root
(`BuiltinValue::to_le_bytes`).  Modelled from the spec for the `Camera`
variant (the dispatch lives in the module root, absent from the
snapshot): the camera decodes through the host-computed `CameraUniform`
(`imgui_state.rs`), whose serialization is embedded above. -/
def BuiltinValue.toLeBytes (ops : FloatOps) : BuiltinValue → List Nat
  | .Time => u32le 0
  | .Camera p yaw pitch en => (ops.cameraUniformOf p yaw pitch en).toLeBytes

/-- Byte encoding of any uniform value, from the `uniform_types` module
root (`ImguiUniformSelectable for UniformValue`, `fn to_le_bytes`):
dispatch to the variant encoders. -/
def UniformValue.toLeBytes (ops : FloatOps) : UniformValue → List Nat
  | .BuiltIn b => b.toLeBytes ops
  | .Scalar s => s.toLeBytes
  | .Vector v => v.toLeBytes
  | .Matrix m => m.toLeBytes
  | .Transform t => t.toLeBytes ops

/-- Conversion `i32 -> u32` with fallback, from the `uniform_types` module
root (`fn cast_i32_u32`): `v.try_into().unwrap_or(DEFAULT_U32_UNIFORM)`,
i.e. negative values fall back to `0`. -/
def cast_i32_u32 (v : Int) : Nat := if v < 0 then 0 else v.toNat

/-- Conversion `f32 -> u32` routed through `i32`, from the
`uniform_types` module root (`fn cast_f32_u32`): `(v as i32)` (a host
float-to-int saturating cast, a `FloatOps` parameter) then
`.try_into().unwrap_or(DEFAULT_U32_UNIFORM)`. -/
def cast_f32_u32 (ops : FloatOps) (v : Nat) : Nat :=
  let i := ops.f32ToI32 v
  if i < 0 then 0 else i.toNat

/-- Rust `v as i32` for a `u32` value: two's-complement wrap. -/
def u32AsI32 (v : Nat) : Int :=
  if v < 2147483648 then (v : Int) else (v : Int) - 4294967296

/-- Scalar-to-scalar cast, from `scalar.rs::cast_to_scalar`. -/
def ScalarUniformValue.castToScalar (ops : FloatOps) :
    ScalarUniformValue → ScalarType → ScalarUniformValue
  | .U32 v, .I32 => .I32 (u32AsI32 v)
  | .U32 v, .F32 => .F32 (ops.u32ToF32 v)
  | .I32 v, .U32 => .U32 (cast_i32_u32 v)
  | .I32 v, .F32 => .F32 (ops.i32ToF32 v)
  | .F32 v, .U32 => .U32 (cast_f32_u32 ops v)
  | .F32 v, .I32 => .I32 (ops.f32ToI32 v)
  | .U32 v, .U32 => .U32 v
  | .I32 v, .I32 => .I32 v
  | .F32 v, .F32 => .F32 v

/-- Scalar broadcast into component 0 of a vec2, from `scalar.rs::to_vec2`. -/
def ScalarUniformValue.toVec2 : ScalarUniformValue → Vec2UniformValue
  | .U32 s => .U32 s 0
  | .I32 s => .I32 s 0
  | .F32 s => .F32 s 0

/-- Scalar broadcast into component 0 of a vec3, from `scalar.rs::to_vec3`. -/
def ScalarUniformValue.toVec3 : ScalarUniformValue → Vec3UniformValue
  | .U32 s => .U32 s 0 0
  | .I32 s => .I32 s 0 0
  | .F32 s => .F32 s 0 0

/-- Scalar broadcast into component 0 of a vec4, from `scalar.rs::to_vec4`. -/
def ScalarUniformValue.toVec4 : ScalarUniformValue → Vec4UniformValue
  | .U32 s => .U32 s 0 0 0
  | .I32 s => .I32 s 0 0 0
  | .F32 s => .F32 s 0 0 0

/-- Scalar-to-vector cast, from `scalar.rs::cast_to_vec`: cast the scalar
to the target inner type, then broadcast. -/
def ScalarUniformValue.castToVec (ops : FloatOps)
    (s : ScalarUniformValue) : VecType → VectorUniformValue
  | .Vec2 t => .Vec2 (s.castToScalar ops t).toVec2
  | .Vec3 t => .Vec3 (s.castToScalar ops t).toVec3
  | .Vec4 t => .Vec4 (s.castToScalar ops t).toVec4

/-- Zero matrix of a given shape; every `cast_to_matrix` in the source
(`scalar.rs`, `vec.rs`, `matrix.rs`, `transform.rs`) builds exactly this
value. -/
def MatrixType.zeroMatrix : MatrixType → MatrixUniformValue
  | .M2x2 => .M2x2 ⟨0, 0⟩ ⟨0, 0⟩
  | .M2x3 => .M2x3 ⟨0, 0, 0⟩ ⟨0, 0, 0⟩
  | .M2x4 => .M2x4 ⟨0, 0, 0, 0⟩ ⟨0, 0, 0, 0⟩
  | .M3x2 => .M3x2 ⟨0, 0⟩ ⟨0, 0⟩ ⟨0, 0⟩
  | .M3x3 => .M3x3 ⟨0, 0, 0⟩ ⟨0, 0, 0⟩ ⟨0, 0, 0⟩
  | .M3x4 => .M3x4 ⟨0, 0, 0, 0⟩ ⟨0, 0, 0, 0⟩ ⟨0, 0, 0, 0⟩
  | .M4x2 => .M4x2 ⟨0, 0⟩ ⟨0, 0⟩ ⟨0, 0⟩ ⟨0, 0⟩
  | .M4x3 => .M4x3 ⟨0, 0, 0⟩ ⟨0, 0, 0⟩ ⟨0, 0, 0⟩ ⟨0, 0, 0⟩
  | .M4x4 => .M4x4 ⟨0, 0, 0, 0⟩ ⟨0, 0, 0, 0⟩ ⟨0, 0, 0, 0⟩ ⟨0, 0, 0, 0⟩

/-- Inner scalar type selected by a `VecType`, from the `let scalar_type =
match v { ... }` prelude of every `cast_to_vec` in `vec.rs`. -/
def VecType.scalarType : VecType → ScalarType
  | .Vec2 s => s
  | .Vec3 s => s
  | .Vec4 s => s

/-!
The `cast_to_vec` implementations in `vec.rs` stage the source components
in a `[ScalarPrimitive; 4]` array — a union of `u32`/`i32`/`f32`, i.e.
32 bits of storage per slot.  The union is modelled as the stored 32-bit
pattern (a `Nat`); each branch writes and reads the same variant, and
the accessors below reinterpret the stored bits exactly as the union
field reads do.
-/

/-- Union slot holding a `u32` (`ScalarPrimitive { u32: v }`). -/
def spOfU32 (v : Nat) : Nat := v

/-- Union slot holding an `i32` (`ScalarPrimitive { i32: v }`):
two's-complement storage. -/
def spOfI32 (v : Int) : Nat := i32bits v

/-- Union slot holding an `f32` bit pattern (`ScalarPrimitive { f32: v }`). -/
def spOfF32 (v : Nat) : Nat := v

/-- Union field read `.u32`. -/
def spU32 (p : Nat) : Nat := p

/-- Union field read `.i32`. -/
def spI32 (p : Nat) : Int := u32AsI32 p

/-- Union field read `.f32` (bit pattern). -/
def spF32 (p : Nat) : Nat := p

/-- Staging array of `Vec2UniformValue::cast_to_vec` (`vec.rs`): the two
components cast to the target inner type, then two zero slots. -/
def Vec2UniformValue.stagingVec4 (ops : FloatOps) :
    Vec2UniformValue → ScalarType → List Nat
  | .U32 x y, .U32 => [spOfU32 x, spOfU32 y, spOfU32 0, spOfU32 0]
  | .U32 x y, .I32 =>
    [spOfI32 (u32AsI32 x), spOfI32 (u32AsI32 y), spOfI32 0, spOfI32 0]
  | .U32 x y, .F32 =>
    [spOfF32 (ops.u32ToF32 x), spOfF32 (ops.u32ToF32 y), spOfF32 0, spOfF32 0]
  | .I32 x y, .U32 =>
    [spOfU32 (cast_i32_u32 x), spOfU32 (cast_i32_u32 y), spOfU32 0, spOfU32 0]
  | .I32 x y, .I32 => [spOfI32 x, spOfI32 y, spOfI32 0, spOfI32 0]
  | .I32 x y, .F32 =>
    [spOfF32 (ops.i32ToF32 x), spOfF32 (ops.i32ToF32 y), spOfF32 0, spOfF32 0]
  | .F32 x y, .U32 =>
    [spOfU32 (cast_f32_u32 ops x), spOfU32 (cast_f32_u32 ops y),
      spOfU32 0, spOfU32 0]
  | .F32 x y, .I32 =>
    [spOfI32 (ops.f32ToI32 x), spOfI32 (ops.f32ToI32 y), spOfI32 0, spOfI32 0]
  | .F32 x y, .F32 => [spOfF32 x, spOfF32 y, spOfF32 0, spOfF32 0]

/-- Staging array of `Vec3UniformValue::cast_to_vec` (`vec.rs`): three
cast components and one zero slot — except the `I32 -> I32` branch,
whose fourth slot is `z` again (`vec.rs` line 535). -/
def Vec3UniformValue.stagingVec4 (ops : FloatOps) :
    Vec3UniformValue → ScalarType → List Nat
  | .U32 x y z, .U32 => [spOfU32 x, spOfU32 y, spOfU32 z, spOfU32 0]
  | .U32 x y z, .I32 =>
    [spOfI32 (u32AsI32 x), spOfI32 (u32AsI32 y), spOfI32 (u32AsI32 z),
      spOfI32 0]
  | .U32 x y z, .F32 =>
    [spOfF32 (ops.u32ToF32 x), spOfF32 (ops.u32ToF32 y),
      spOfF32 (ops.u32ToF32 z), spOfF32 0]
  | .I32 x y z, .U32 =>
    [spOfU32 (cast_i32_u32 x), spOfU32 (cast_i32_u32 y),
      spOfU32 (cast_i32_u32 z), spOfU32 0]
  | .I32 x y z, .I32 => [spOfI32 x, spOfI32 y, spOfI32 z, spOfI32 z]
  | .I32 x y z, .F32 =>
    [spOfF32 (ops.i32ToF32 x), spOfF32 (ops.i32ToF32 y),
      spOfF32 (ops.i32ToF32 z), spOfF32 0]
  | .F32 x y z, .U32 =>
    [spOfU32 (cast_f32_u32 ops x), spOfU32 (cast_f32_u32 ops y),
      spOfU32 (cast_f32_u32 ops z), spOfU32 0]
  | .F32 x y z, .I32 =>
    [spOfI32 (ops.f32ToI32 x), spOfI32 (ops.f32ToI32 y),
      spOfI32 (ops.f32ToI32 z), spOfI32 0]
  | .F32 x y z, .F32 => [spOfF32 x, spOfF32 y, spOfF32 z, spOfF32 0]

/-- Staging array of `Vec4UniformValue::cast_to_vec` (`vec.rs`): all four
components cast to the target inner type. -/
def Vec4UniformValue.stagingVec4 (ops : FloatOps) :
    Vec4UniformValue → ScalarType → List Nat
  | .U32 x y z w, .U32 => [spOfU32 x, spOfU32 y, spOfU32 z, spOfU32 w]
  | .U32 x y z w, .I32 =>
    [spOfI32 (u32AsI32 x), spOfI32 (u32AsI32 y), spOfI32 (u32AsI32 z),
      spOfI32 (u32AsI32 w)]
  | .U32 x y z w, .F32 =>
    [spOfF32 (ops.u32ToF32 x), spOfF32 (ops.u32ToF32 y),
      spOfF32 (ops.u32ToF32 z), spOfF32 (ops.u32ToF32 w)]
  | .I32 x y z w, .U32 =>
    [spOfU32 (cast_i32_u32 x), spOfU32 (cast_i32_u32 y),
      spOfU32 (cast_i32_u32 z), spOfU32 (cast_i32_u32 w)]
  | .I32 x y z w, .I32 => [spOfI32 x, spOfI32 y, spOfI32 z, spOfI32 w]
  | .I32 x y z w, .F32 =>
    [spOfF32 (ops.i32ToF32 x), spOfF32 (ops.i32ToF32 y),
      spOfF32 (ops.i32ToF32 z), spOfF32 (ops.i32ToF32 w)]
  | .F32 x y z w, .U32 =>
    [spOfU32 (cast_f32_u32 ops x), spOfU32 (cast_f32_u32 ops y),
      spOfU32 (cast_f32_u32 ops z), spOfU32 (cast_f32_u32 ops w)]
  | .F32 x y z w, .I32 =>
    [spOfI32 (ops.f32ToI32 x), spOfI32 (ops.f32ToI32 y),
      spOfI32 (ops.f32ToI32 z), spOfI32 (ops.f32ToI32 w)]
  | .F32 x y z w, .F32 => [spOfF32 x, spOfF32 y, spOfF32 z, spOfF32 w]

/-- Reassembly of the staged slots into the target vector, shared
verbatim by the three `cast_to_vec` implementations in `vec.rs`: the
`Vec2` target reads slots 0 and 1, but the `Vec3` target reads slots
`(0, 1, 0)` and the `Vec4` target slots `(0, 1, 0, 1)` — the third and
fourth components are rebuilt from slots 0 and 1, not 2 and 3. -/
def vecReassemble (s : List Nat) : VecType → VectorUniformValue
  | .Vec2 .U32 => .Vec2 (.U32 (spU32 (s.getD 0 0)) (spU32 (s.getD 1 0)))
  | .Vec2 .I32 => .Vec2 (.I32 (spI32 (s.getD 0 0)) (spI32 (s.getD 1 0)))
  | .Vec2 .F32 => .Vec2 (.F32 (spF32 (s.getD 0 0)) (spF32 (s.getD 1 0)))
  | .Vec3 .U32 =>
    .Vec3 (.U32 (spU32 (s.getD 0 0)) (spU32 (s.getD 1 0)) (spU32 (s.getD 0 0)))
  | .Vec3 .I32 =>
    .Vec3 (.I32 (spI32 (s.getD 0 0)) (spI32 (s.getD 1 0)) (spI32 (s.getD 0 0)))
  | .Vec3 .F32 =>
    .Vec3 (.F32 (spF32 (s.getD 0 0)) (spF32 (s.getD 1 0)) (spF32 (s.getD 0 0)))
  | .Vec4 .U32 =>
    .Vec4 (.U32 (spU32 (s.getD 0 0)) (spU32 (s.getD 1 0))
      (spU32 (s.getD 0 0)) (spU32 (s.getD 1 0)))
  | .Vec4 .I32 =>
    .Vec4 (.I32 (spI32 (s.getD 0 0)) (spI32 (s.getD 1 0))
      (spI32 (s.getD 0 0)) (spI32 (s.getD 1 0)))
  | .Vec4 .F32 =>
    .Vec4 (.F32 (spF32 (s.getD 0 0)) (spF32 (s.getD 1 0))
      (spF32 (s.getD 0 0)) (spF32 (s.getD 1 0)))

/-- Vector-to-vector cast of a vec2, from `vec.rs::cast_to_vec`
(`Vec2UniformValue`). -/
def Vec2UniformValue.castToVec (ops : FloatOps) (v : Vec2UniformValue)
    (t : VecType) : VectorUniformValue :=
  vecReassemble (v.stagingVec4 ops t.scalarType) t

/-- Vector-to-vector cast of a vec3, from `vec.rs::cast_to_vec`
(`Vec3UniformValue`, lines 489-624). -/
def Vec3UniformValue.castToVec (ops : FloatOps) (v : Vec3UniformValue)
    (t : VecType) : VectorUniformValue :=
  vecReassemble (v.stagingVec4 ops t.scalarType) t

/-- Vector-to-vector cast of a vec4, from `vec.rs::cast_to_vec`
(`Vec4UniformValue`, lines 870-1009). -/
def Vec4UniformValue.castToVec (ops : FloatOps) (v : Vec4UniformValue)
    (t : VecType) : VectorUniformValue :=
  vecReassemble (v.stagingVec4 ops t.scalarType) t

/-- Vector-to-scalar cast of a vec2 (component 0 with the numeric-cast
rule), from `vec.rs::cast_to_scalar` (`Vec2UniformValue`). -/
def Vec2UniformValue.castToScalar (ops : FloatOps) :
    Vec2UniformValue → ScalarType → ScalarUniformValue
  | .U32 x _, .U32 => .U32 x
  | .U32 x _, .I32 => .I32 (u32AsI32 x)
  | .U32 x _, .F32 => .F32 (ops.u32ToF32 x)
  | .I32 x _, .U32 => .U32 (cast_i32_u32 x)
  | .I32 x _, .I32 => .I32 x
  | .I32 x _, .F32 => .F32 (ops.i32ToF32 x)
  | .F32 x _, .U32 => .U32 (cast_f32_u32 ops x)
  | .F32 x _, .I32 => .I32 (ops.f32ToI32 x)
  | .F32 x _, .F32 => .F32 x

/-- Vector-to-scalar cast of a vec3, from `vec.rs::cast_to_scalar`
(`Vec3UniformValue`). -/
def Vec3UniformValue.castToScalar (ops : FloatOps) :
    Vec3UniformValue → ScalarType → ScalarUniformValue
  | .U32 x _ _, .U32 => .U32 x
  | .U32 x _ _, .I32 => .I32 (u32AsI32 x)
  | .U32 x _ _, .F32 => .F32 (ops.u32ToF32 x)
  | .I32 x _ _, .U32 => .U32 (cast_i32_u32 x)
  | .I32 x _ _, .I32 => .I32 x
  | .I32 x _ _, .F32 => .F32 (ops.i32ToF32 x)
  | .F32 x _ _, .U32 => .U32 (cast_f32_u32 ops x)
  | .F32 x _ _, .I32 => .I32 (ops.f32ToI32 x)
  | .F32 x _ _, .F32 => .F32 x

/-- Vector-to-scalar cast of a vec4, from `vec.rs::cast_to_scalar`
(`Vec4UniformValue`). -/
def Vec4UniformValue.castToScalar (ops : FloatOps) :
    Vec4UniformValue → ScalarType → ScalarUniformValue
  | .U32 x _ _ _, .U32 => .U32 x
  | .U32 x _ _ _, .I32 => .I32 (u32AsI32 x)
  | .U32 x _ _ _, .F32 => .F32 (ops.u32ToF32 x)
  | .I32 x _ _ _, .U32 => .U32 (cast_i32_u32 x)
  | .I32 x _ _ _, .I32 => .I32 x
  | .I32 x _ _ _, .F32 => .F32 (ops.i32ToF32 x)
  | .F32 x _ _ _, .U32 => .U32 (cast_f32_u32 ops x)
  | .F32 x _ _ _, .I32 => .I32 (ops.f32ToI32 x)
  | .F32 x _ _ _, .F32 => .F32 x

/-- Zero vector of a given vector type; every `cast_to_vec` in
`matrix.rs` and `transform.rs` builds exactly this value. -/
def VecType.zeroVector : VecType → VectorUniformValue
  | .Vec2 .U32 => .Vec2 (.U32 0 0)
  | .Vec2 .I32 => .Vec2 (.I32 0 0)
  | .Vec2 .F32 => .Vec2 (.F32 0 0)
  | .Vec3 .U32 => .Vec3 (.U32 0 0 0)
  | .Vec3 .I32 => .Vec3 (.I32 0 0 0)
  | .Vec3 .F32 => .Vec3 (.F32 0 0 0)
  | .Vec4 .U32 => .Vec4 (.U32 0 0 0 0)
  | .Vec4 .I32 => .Vec4 (.I32 0 0 0 0)
  | .Vec4 .F32 => .Vec4 (.F32 0 0 0 0)

/-- Zero scalar of a given scalar type; `cast_to_scalar` in `matrix.rs`
and `transform.rs` builds exactly this value. -/
def ScalarType.zeroScalar : ScalarType → ScalarUniformValue
  | .U32 => .U32 0
  | .I32 => .I32 0
  | .F32 => .F32 0

/-- Scalar cast dispatch, from `scalar.rs::cast_to` (`impl
ImguiUniformSelectable for ScalarUniformValue`): casting to a matrix
resets to the zero matrix, to a transform resets to the default
transform. -/
def ScalarUniformValue.castTo (ops : FloatOps) (s : ScalarUniformValue) :
    UniformType → UniformValue
  | .Scalar t => .Scalar (s.castToScalar ops t)
  | .Vec t => .Vector (s.castToVec ops t)
  | .Matrix m => .Matrix m.zeroMatrix
  | .Transform => .Transform TransformUniformValue.defaultValue

/-- Vector cast dispatch, from `vec.rs` (`impl ImguiUniformSelectable for
VectorUniformValue`). -/
def VectorUniformValue.castTo (ops : FloatOps) (v : VectorUniformValue) :
    UniformType → UniformValue
  | .Scalar t =>
    match v with
    | .Vec2 w => .Scalar (w.castToScalar ops t)
    | .Vec3 w => .Scalar (w.castToScalar ops t)
    | .Vec4 w => .Scalar (w.castToScalar ops t)
  | .Vec t =>
    match v with
    | .Vec2 w => .Vector (w.castToVec ops t)
    | .Vec3 w => .Vector (w.castToVec ops t)
    | .Vec4 w => .Vector (w.castToVec ops t)
  | .Matrix m => .Matrix m.zeroMatrix
  | .Transform => .Transform TransformUniformValue.defaultValue

/-- Matrix cast dispatch, from `matrix.rs` (`impl ImguiUniformSelectable
for MatrixUniformValue`): data is never preserved. -/
def MatrixUniformValue.castTo (_ : MatrixUniformValue) :
    UniformType → UniformValue
  | .Scalar t => .Scalar t.zeroScalar
  | .Vec t => .Vector t.zeroVector
  | .Matrix m => .Matrix m.zeroMatrix
  | .Transform => .Transform TransformUniformValue.defaultValue

/-- Transform cast dispatch, from `transform.rs` (`impl
ImguiUniformSelectable for TransformUniformValue`): everything resets;
casting a transform to `Transform` is `unreachable` (`none`). -/
def TransformUniformValue.castTo (_ : TransformUniformValue) :
    UniformType → Option UniformValue
  | .Scalar t => some (.Scalar t.zeroScalar)
  | .Vec t => some (.Vector t.zeroVector)
  | .Matrix m => some (.Matrix m.zeroMatrix)
  | .Transform => none

/-- Cast of any uniform value, from the `uniform_types` module root
(`ImguiUniformSelectable for UniformValue`, `fn cast_to`): casting a
built-in is `unreachable` (`none`). -/
def UniformValue.castTo (ops : FloatOps) :
    UniformValue → UniformType → Option UniformValue
  | .BuiltIn _, _ => none
  | .Scalar s, t => some (s.castTo ops t)
  | .Vector v, t => some (v.castTo ops t)
  | .Matrix m, t => some (m.castTo t)
  | .Transform tr, t => tr.castTo t

/-- In-place matrix resize, from `matrix.rs` (`impl ImguiMatrix for
MatrixUniformValue`): `cast_to_matrix` of the new shape, i.e. reset to
the zero matrix of that shape. -/
def MatrixUniformValue.changeMatrixSize (_ : MatrixUniformValue)
    (t : MatrixType) : MatrixUniformValue :=
  t.zeroMatrix

/-- Matrix resize of any uniform value, from the `uniform_types` module
root (`impl ImguiMatrix for UniformValue`): `unreachable` (`none`) for
every non-matrix variant. -/
def UniformValue.changeMatrixSize :
    UniformValue → MatrixType → Option UniformValue
  | .Matrix m, t => some (.Matrix (m.changeMatrixSize t))
  | _, _ => none

/-- Scalar decrement, from `scalar.rs` (`impl ImguiScalar`, `fn
decrease`): `*v -= 1` with no lower-bound guard.  Rust release builds
wrap modulo `2^32` (`2^31` two's complement for `i32`); debug builds
abort on overflow (not modelled — the wrapping result is recorded). -/
def ScalarUniformValue.decrease (ops : FloatOps) :
    ScalarUniformValue → ScalarUniformValue
  | .U32 v => .U32 ((v + 4294967295) % 4294967296)
  | .I32 v => .I32 (u32AsI32 (i32bits (v - 1)))
  | .F32 v => .F32 (ops.f32SubOne v)

/-- Scalar increment, from `scalar.rs` (`impl ImguiScalar`, `fn
increase`): `*v += 1`, wrapping in release builds. -/
def ScalarUniformValue.increase (ops : FloatOps) :
    ScalarUniformValue → ScalarUniformValue
  | .U32 v => .U32 ((v + 1) % 4294967296)
  | .I32 v => .I32 (u32AsI32 (i32bits (v + 1)))
  | .F32 v => .F32 (ops.f32AddOne v)

/-- Decrement of any uniform value, from the `uniform_types` module root
(`impl ImguiScalar for UniformValue`): `unreachable` for non-scalars. -/
def UniformValue.decrease (ops : FloatOps) :
    UniformValue → Option UniformValue
  | .Scalar s => some (.Scalar (s.decrease ops))
  | _ => none

/-- Increment of any uniform value, from the `uniform_types` module root
(`impl ImguiScalar for UniformValue`): `unreachable` for non-scalars. -/
def UniformValue.increase (ops : FloatOps) :
    UniformValue → Option UniformValue
  | .Scalar s => some (.Scalar (s.increase ops))
  | _ => none

/-- Device-buffer write at an offset (`Queue::write_buffer` followed by
`.unwrap()` in the source): writing past the end of the buffer is a
validation error, so the unwrap aborts (`none`); otherwise the bytes
replace the slice at `offset` and the buffer size is unchanged. -/
def writeBuffer (buf : List Nat) (offset : Nat) (data : List Nat) :
    Option (List Nat) :=
  if offset + data.length ≤ buf.length then
    some (buf.take offset ++ data ++ buf.drop (offset + data.length))
  else
    none

/-- Binding: one named uniform value plus its device buffer, from
`imgui_state.rs` (`struct UniformBinding`).  The buffer is modelled by
its byte contents; its size is `bufData.length`. -/
structure UniformBinding where
  value : UniformValue
  name : String
  bufData : List Nat
deriving DecidableEq, Repr

/-- Fresh binding, from `imgui_state.rs::UniformBinding::new`: a new
buffer initialized with the value's encoding, name `"unnamed"`. -/
def UniformBinding.new (ops : FloatOps) (v : UniformValue) : UniformBinding :=
  { value := v, name := "unnamed", bufData := v.toLeBytes ops }

/-- Type change of a binding, from
`imgui_state.rs::UniformBinding::change_type` (lines 118-136): cast the
value; if the encoded length changed, allocate a fresh correctly sized
buffer (`create_buffer_init`), else write the bytes in place. -/
def UniformBinding.changeType (ops : FloatOps) (b : UniformBinding)
    (newType : UniformType) : Option UniformBinding := do
  let oldSize := (b.value.toLeBytes ops).length
  let newValue ← b.value.castTo ops newType
  let newBytes := newValue.toLeBytes ops
  if newBytes.length ≠ oldSize then
    some { b with value := newValue, bufData := newBytes }
  else do
    let bd ← writeBuffer b.bufData 0 newBytes
    some { b with value := newValue, bufData := bd }

/-- Matrix resize of a binding, from
`imgui_state.rs::UniformBinding::change_matrix_size` (lines 249-253):
resize the value, then `write_buffer` the new encoding into the EXISTING
buffer — no reallocation, even though the encoded length changed. -/
def UniformBinding.changeMatrixSize (ops : FloatOps) (b : UniformBinding)
    (matrixSize : MatrixType) : Option UniformBinding := do
  let newValue ← b.value.changeMatrixSize matrixSize
  let newBytes := newValue.toLeBytes ops
  let bd ← writeBuffer b.bufData 0 newBytes
  some { b with value := newValue, bufData := bd }

/-- Decrement of a binding, from
`imgui_state.rs::UniformBinding::decrease` (lines 148-153): decrease the
value, write the (same-size) encoding in place. -/
def UniformBinding.decrease (ops : FloatOps) (b : UniformBinding) :
    Option UniformBinding := do
  let newValue ← b.value.decrease ops
  let bd ← writeBuffer b.bufData 0 (newValue.toLeBytes ops)
  some { b with value := newValue, bufData := bd }

/-- Increment of a binding, from
`imgui_state.rs::UniformBinding::increase` (lines 155-160). -/
def UniformBinding.increase (ops : FloatOps) (b : UniformBinding) :
    Option UniformBinding := do
  let newValue ← b.value.increase ops
  let bd ← writeBuffer b.bufData 0 (newValue.toLeBytes ops)
  some { b with value := newValue, bufData := bd }

/-- Default uniform appended by `add_f32`, from `imgui_state.rs`
(`const DEFAULT_UNIFORM`): `Scalar(F32(0.0))` (bit pattern 0). -/
def DEFAULT_UNIFORM : UniformValue := .Scalar (.F32 0)

/-- Binding group: ordered bindings sharing one device layout/group
handle, from `imgui_state.rs` (`struct UniformGroup`; named
`BindingGroup` here, the spec's name, since Mathlib already uses
`UniformGroup`).  The device handle is modelled by a generation counter
that `refresh_bind_group` bumps. -/
structure BindingGroup where
  bindings : List UniformBinding
  bindGroupGen : Nat
deriving DecidableEq, Repr

/-- Handle regeneration, from
`imgui_state.rs::UniformGroup::refresh_bind_group`: rebuilds the layout
and group handle from the current binding list. -/
def BindingGroup.refreshBindGroup (g : BindingGroup) : BindingGroup :=
  { g with bindGroupGen := g.bindGroupGen + 1 }

/-- Append a default `f32` binding and refresh the handle, from
`imgui_state.rs::UniformGroup::add_f32` (lines 303-307). -/
def BindingGroup.addF32 (ops : FloatOps) (g : BindingGroup) : BindingGroup :=
  ({ g with
      bindings := g.bindings ++ [UniformBinding.new ops DEFAULT_UNIFORM]
    }).refreshBindGroup

/-- Append a custom binding and refresh the handle, from
`imgui_state.rs::UniformGroup::add_custom`. -/
def BindingGroup.addCustom (ops : FloatOps) (g : BindingGroup)
    (v : UniformValue) : BindingGroup :=
  ({ g with bindings := g.bindings ++ [UniformBinding.new ops v] }).refreshBindGroup

/-- Define a binding index, from
`imgui_state.rs::UniformGroup::define_binding` (lines 346-350): append
default `Scalar(F32 = 0.0)` bindings while `binding >= len`. -/
def BindingGroup.defineBinding (ops : FloatOps) (g : BindingGroup)
    (binding : Nat) : BindingGroup :=
  if binding ≥ g.bindings.length then
    BindingGroup.defineBinding ops (g.addF32 ops) binding
  else
    g
termination_by binding + 1 - g.bindings.length
decreasing_by
  simp only [BindingGroup.addF32, BindingGroup.refreshBindGroup,
    List.length_append, List.length_cons, List.length_nil]
  omega

/-- Binding set: ordered groups plus the well-known Time and Camera
locations, from `imgui_state.rs` (`struct Uniforms`). -/
structure Uniforms where
  groups : List BindingGroup
  timeUniformLocation : Nat × Nat
  cameraUniformLocation : Nat × Nat
deriving DecidableEq, Repr

/-- Startup binding set, from `imgui_state.rs::Uniforms::new`: group 0
holds the Time built-in at index 0, group 1 the Camera built-in at
index 0 (position `(-1.5, 1.2, 0.5)`, yaw = pitch = -45 degrees in
radians, disabled).  The `f32` constants are recorded as bit patterns:
`-1.5 = 0xBFC00000`, `1.2 = 0x3F99999A`, `0.5 = 0x3F000000`,
`-pi/4 = 0xBF490FDB`. -/
def Uniforms.new (ops : FloatOps) : Uniforms :=
  let group0 :=
    BindingGroup.addCustom ops ⟨[], 0⟩ (.BuiltIn .Time)
  let group1 :=
    BindingGroup.addCustom ops ⟨[], 0⟩
      (.BuiltIn (.Camera ⟨0xBFC00000, 0x3F99999A, 0x3F000000⟩
        0xBF490FDB 0xBF490FDB false))
  { groups := [group0, group1]
    timeUniformLocation := (0, 0)
    cameraUniformLocation := (1, 0) }

/-- Per-frame time update, from `imgui_state.rs::Uniforms::update_time`
(lines 517-525), which takes `&self`: look up the binding at the stored
time location (indexing panics when out of range), `assert!` its value
is `BuiltIn(Time)`, and `write_buffer` the 4 little-endian bytes of the
elapsed milliseconds at offset 0 of that binding's existing buffer.  No
value, membership or handle changes. -/
def Uniforms.updateTime (u : Uniforms) (elapsedTime : Nat) :
    Option Uniforms := do
  let g := u.timeUniformLocation.1
  let b := u.timeUniformLocation.2
  let grp ← u.groups.get? g
  let timeBinding ← grp.bindings.get? b
  if timeBinding.value = UniformValue.BuiltIn .Time then do
    let bd ← writeBuffer timeBinding.bufData 0 (u32le elapsedTime)
    some { u with
      groups := u.groups.set g
        { grp with
          bindings := grp.bindings.set b { timeBinding with bufData := bd } } }
  else
    none

/-- Ensure a (group, binding) location exists, from
`imgui_state.rs::Uniforms::define_binding` (lines 539-545): append empty
groups while `group >= groups.len()`, then delegate to the group. -/
def Uniforms.defineBinding (ops : FloatOps) (u : Uniforms)
    (group binding : Nat) : Uniforms :=
  if group ≥ u.groups.length then
    Uniforms.defineBinding ops
      { u with groups := u.groups ++ [⟨[], 0⟩] } group binding
  else
    { u with
      groups := u.groups.modify
        (fun g => g.defineBinding ops binding) group }
termination_by group + 1 - u.groups.length
decreasing_by
  simp only [List.length_append, List.length_cons, List.length_nil]
  omega

/-- Shader-validation binding error categories, mirroring the
`wgpu::core::validation::BindingError` variants matched in
`state.rs::handle_pipeline_err` (payloads that the handler never reads
are dropped). -/
inductive BindingErr where
  | Missing
  | Invisible
  | WrongType
  | WrongAddressSpace
  | WrongBufferSize
  | WrongTextureViewDimension
  | WrongTextureClass
  | WrongSamplerComparison
  | InconsistentlyDerivedType
  | BadStorageFormat
  | UnsupportedTextureStorageAccess
deriving DecidableEq, Repr

/-- Shader-stage error categories, mirroring
`wgpu::core::validation::StageError` as matched in
`state.rs::handle_pipeline_err`; the `Binding` variant carries the
(group, binding) location. -/
inductive StageErr where
  | Binding (group binding : Nat) (e : BindingErr)
  | InvalidModule
  | InvalidWorkgroupSize
  | TooManyVaryings
  | MissingEntryPoint
  | Filtering
  | Input
  | InputNotConsumed
deriving DecidableEq, Repr

/-- Pipeline-build error categories, mirroring
`wgpu::core::pipeline::CreateRenderPipelineError` as matched in
`state.rs::handle_pipeline_err` (lines 617-675). -/
inductive CreateRenderPipelineErr where
  | Stage (e : StageErr)
  | ColorAttachment
  | Device
  | InvalidLayout
  | Implicit
  | ColorState
  | DepthStencilState
  | InvalidSampleCount
  | TooManyVertexBuffers
  | TooManyVertexAttributes
  | VertexStrideTooLarge
  | UnalignedVertexStride
  | InvalidVertexAttributeOffset
  | ShaderLocationClash
  | StripIndexFormatForNonStripTopology
  | ConservativeRasterizationNonFillPolygonMode
  | MissingFeatures
  | MissingDownlevelFlags
  | Internal
  | UnalignedShader
  | BlendFactorOnUnsupportedTarget
  | PipelineExpectsShaderToUseDualSourceBlending
  | ShaderExpectsPipelineToUseDualSourceBlending
deriving DecidableEq, Repr

/-- Outcome of `state.rs::handle_pipeline_err` for one error: either the
repair `define_binding(group, binding)` (followed by a rebuild), or a
process abort — every arm of the match other than
`StageError::Binding(_, BindingError::Missing)` is a `todo` macro
invocation, which panics at runtime. -/
inductive PipelineErrOutcome where
  | repairMissing (group binding : Nat)
  | panicAbort
deriving DecidableEq, Repr

/-- Pipeline-error handler, from `state.rs::handle_pipeline_err` (lines
617-675): only a missing binding is repaired; every other category
aborts the process. -/
def handlePipelineErr : CreateRenderPipelineErr → PipelineErrOutcome
  | .Stage (.Binding g b .Missing) => .repairMissing g b
  | _ => .panicAbort

/-- Repairability predicate implicit in `handle_pipeline_err`: exactly
the `MissingBinding` category has a defined repair. -/
def CreateRenderPipelineErr.isRepairable : CreateRenderPipelineErr → Bool
  | .Stage (.Binding _ _ .Missing) => true
  | _ => false

/-- Size-to-type repair table, from
`imgui_state.rs::UniformBinding::change_binding_size` (lines 168-247,
`DEFAULT_SIZEN_TYPE`): 65 entries, a default variant exactly at the
sizes 4, 8, 12, 16, 24, 32, 36, 48 and 64. -/
def DEFAULT_SIZEN_TYPE : List (Option UniformType) :=
  List.replicate 4 none
    ++ [some (.Scalar .F32)]
    ++ List.replicate 3 none
    ++ [some (.Vec (.Vec2 .F32))]
    ++ List.replicate 3 none
    ++ [some (.Vec (.Vec3 .F32))]
    ++ List.replicate 3 none
    ++ [some (.Vec (.Vec4 .F32))]
    ++ List.replicate 7 none
    ++ [some (.Matrix .M2x3)]
    ++ List.replicate 7 none
    ++ [some (.Matrix .M2x4)]
    ++ List.replicate 3 none
    ++ [some (.Matrix .M3x3)]
    ++ List.replicate 11 none
    ++ [some (.Matrix .M3x4)]
    ++ List.replicate 15 none
    ++ [some (.Matrix .M4x4)]

/-- Table lookup used by `change_binding_size`:
`DEFAULT_SIZEN_TYPE.get(new_size)` (`none` past the end) followed by the
inner `Option`. -/
def sizeTableLookup (newSize : Nat) : Option UniformType :=
  (DEFAULT_SIZEN_TYPE.get? newSize).bind id

/-- Binding resize repair, from
`imgui_state.rs::UniformBinding::change_binding_size` (lines 168-247):
`DEFAULT_SIZEN_TYPE.get(new_size).unwrap().unwrap()` — both a
past-the-end size and a size with no default variant abort (`none`) —
then `change_type` to the matched variant. -/
def UniformBinding.changeBindingSize (ops : FloatOps) (b : UniformBinding)
    (newSize : Nat) : Option UniformBinding := do
  let t ← sizeTableLookup newSize
  b.changeType ops t

/-- Rust saturating cast `v as i32` restricted to finite `f32` inputs
whose mathematical value is the integer `v` (such inputs exist for every
integer of magnitude below `2^31` and for many larger ones, e.g.
`5e9_f32` holds exactly 5000000000): truncation is the identity and the
result clamps to the `i32` range. -/
def rustF32AsI32Int (v : Int) : Int :=
  max (-2147483648) (min v 2147483647)

/-- Conversion `f32 -> u32` of `fn cast_f32_u32`
(`uniform_types.rs` lines 198-206) evaluated on an `f32` holding the
exact integer value `v`: the two-step route `(v as i32)` then
`.try_into().unwrap_or(0)`. -/
def cast_f32_u32_int (v : Int) : Nat :=
  let i := rustF32AsI32Int v
  if i < 0 then 0 else i.toNat

/-- JSON value, modelling `serde_json::Value` as far as the persistence
code inspects it.  Numeric payloads are modelled as integers: every
number the save/load round trip of this claim set manipulates is
structural (locations, counts) or an opaque `f32` payload. -/
inductive Json where
  | null
  | bool (b : Bool)
  | num (n : Int)
  | str (s : String)
  | arr (xs : List Json)
  | obj (fields : List (String × Json))

/-- Field lookup on a JSON object map (`Map::get`). -/
def jsonGet (fields : List (String × Json)) (key : String) : Option Json :=
  (fields.find? (fun p => p.1 = key)).map (fun p => p.2)

/-- Accessor `as_object`. -/
def Json.asObject : Json → Option (List (String × Json))
  | .obj fields => some fields
  | _ => none

/-- Accessor `as_array`. -/
def Json.asArray : Json → Option (List Json)
  | .arr xs => some xs
  | _ => none

/-- Accessor `as_str`. -/
def Json.asStr : Json → Option String
  | .str s => some s
  | _ => none

/-- Accessor `as_u64`: an integer number in `u64` range. -/
def Json.asU64 : Json → Option Nat
  | .num n => if 0 ≤ n ∧ n < 18446744073709551616 then some n.toNat else none
  | _ => none

/-- Accessor `as_i64`: an integer number in `i64` range. -/
def Json.asI64 : Json → Option Int
  | .num n =>
    if -9223372036854775808 ≤ n ∧ n < 9223372036854775808 then some n
    else none
  | _ => none

/-- Accessor `as_f64` on the integer-modelled numbers. -/
def Json.asF64 : Json → Option Int
  | .num n => some n
  | _ => none

/-- Accessor `as_bool`. -/
def Json.asBool : Json → Option Bool
  | .bool b => some b
  | _ => none

/-- Scalar decode, from `scalar.rs::from_json` (lines 268-286): reads
`value` and `innertype`, dispatches on `"f32" | "u32" | "i32"`. -/
def ScalarUniformValue.fromJson (ops : FloatOps)
    (uniform : List (String × Json)) : Option ScalarUniformValue := do
  let value ← jsonGet uniform "value"
  let innerType ← (← jsonGet uniform "innertype").asStr
  match innerType with
  | "f32" => do
    let val ← value.asF64
    some (.F32 (ops.f64ToF32 val))
  | "u32" => do
    let val ← value.asU64
    some (.U32 (val % 4294967296))
  | "i32" => do
    let val ← value.asI64
    some (.I32 (u32AsI32 (i32bits val)))
  | _ => none

/-- Vec2 decode, from `vec.rs::from_json` (`Vec2UniformValue`): reads
`innertype2` and `item0`/`item1`. -/
def Vec2UniformValue.fromJson (ops : FloatOps)
    (jsonVal : List (String × Json)) : Option Vec2UniformValue := do
  let innerType2 ← (← jsonGet jsonVal "innertype2").asStr
  let i0 ← jsonGet jsonVal "item0"
  let i1 ← jsonGet jsonVal "item1"
  match innerType2 with
  | "f32" => do
    some (.F32 (ops.f64ToF32 (← i0.asF64)) (ops.f64ToF32 (← i1.asF64)))
  | "u32" => do
    some (.U32 ((← i0.asU64) % 4294967296) ((← i1.asU64) % 4294967296))
  | "i32" => do
    some (.I32 (u32AsI32 (i32bits (← i0.asI64))) (u32AsI32 (i32bits (← i1.asI64))))
  | _ => none

/-- Vec3 decode, from `vec.rs::from_json` (`Vec3UniformValue`). -/
def Vec3UniformValue.fromJson (ops : FloatOps)
    (jsonVal : List (String × Json)) : Option Vec3UniformValue := do
  let innerType2 ← (← jsonGet jsonVal "innertype2").asStr
  let i0 ← jsonGet jsonVal "item0"
  let i1 ← jsonGet jsonVal "item1"
  let i2 ← jsonGet jsonVal "item2"
  match innerType2 with
  | "f32" => do
    some (.F32 (ops.f64ToF32 (← i0.asF64)) (ops.f64ToF32 (← i1.asF64))
      (ops.f64ToF32 (← i2.asF64)))
  | "u32" => do
    some (.U32 ((← i0.asU64) % 4294967296) ((← i1.asU64) % 4294967296)
      ((← i2.asU64) % 4294967296))
  | "i32" => do
    some (.I32 (u32AsI32 (i32bits (← i0.asI64))) (u32AsI32 (i32bits (← i1.asI64)))
      (u32AsI32 (i32bits (← i2.asI64))))
  | _ => none

/-- Vec4 decode, from `vec.rs::from_json` (`Vec4UniformValue`). -/
def Vec4UniformValue.fromJson (ops : FloatOps)
    (jsonVal : List (String × Json)) : Option Vec4UniformValue := do
  let innerType2 ← (← jsonGet jsonVal "innertype2").asStr
  let i0 ← jsonGet jsonVal "item0"
  let i1 ← jsonGet jsonVal "item1"
  let i2 ← jsonGet jsonVal "item2"
  let i3 ← jsonGet jsonVal "item3"
  match innerType2 with
  | "f32" => do
    some (.F32 (ops.f64ToF32 (← i0.asF64)) (ops.f64ToF32 (← i1.asF64))
      (ops.f64ToF32 (← i2.asF64)) (ops.f64ToF32 (← i3.asF64)))
  | "u32" => do
    some (.U32 ((← i0.asU64) % 4294967296) ((← i1.asU64) % 4294967296)
      ((← i2.asU64) % 4294967296) ((← i3.asU64) % 4294967296))
  | "i32" => do
    some (.I32 (u32AsI32 (i32bits (← i0.asI64))) (u32AsI32 (i32bits (← i1.asI64)))
      (u32AsI32 (i32bits (← i2.asI64))) (u32AsI32 (i32bits (← i3.asI64))))
  | _ => none

/-- Vector decode dispatch, from `vec.rs` (`VectorUniformValue::from_json`):
reads `innertype` in `"vec2" | "vec3" | "vec4"`. -/
def VectorUniformValue.fromJson (ops : FloatOps)
    (uniform : List (String × Json)) : Option VectorUniformValue := do
  let innerType ← (← jsonGet uniform "innertype").asStr
  match innerType with
  | "vec2" => do some (.Vec2 (← Vec2UniformValue.fromJson ops uniform))
  | "vec3" => do some (.Vec3 (← Vec3UniformValue.fromJson ops uniform))
  | "vec4" => do some (.Vec4 (← Vec4UniformValue.fromJson ops uniform))
  | _ => none

/-- Column decode (two rows), from `matrix.rs` (`MatrixColumn for
Column2`, `fn from_json`): the array length must be exactly 2. -/
def Column2.fromJson (ops : FloatOps) (jsonVal : List Json) : Option Column2 :=
  if jsonVal.length ≠ 2 then none
  else
    ((jsonVal.get? 0).bind Json.asF64).bind fun r0 =>
    ((jsonVal.get? 1).bind Json.asF64).bind fun r1 =>
    some ⟨ops.f64ToF32 r0, ops.f64ToF32 r1⟩

/-- Column decode (three rows), from `matrix.rs` (`MatrixColumn for
Column3`, `fn from_json`). -/
def Column3.fromJson (ops : FloatOps) (jsonVal : List Json) : Option Column3 :=
  if jsonVal.length ≠ 3 then none
  else
    ((jsonVal.get? 0).bind Json.asF64).bind fun r0 =>
    ((jsonVal.get? 1).bind Json.asF64).bind fun r1 =>
    ((jsonVal.get? 2).bind Json.asF64).bind fun r2 =>
    some ⟨ops.f64ToF32 r0, ops.f64ToF32 r1, ops.f64ToF32 r2⟩

/-- Column decode (four rows), from `matrix.rs` (`MatrixColumn for
Column4`, `fn from_json`). -/
def Column4.fromJson (ops : FloatOps) (jsonVal : List Json) : Option Column4 :=
  if jsonVal.length ≠ 4 then none
  else
    ((jsonVal.get? 0).bind Json.asF64).bind fun r0 =>
    ((jsonVal.get? 1).bind Json.asF64).bind fun r1 =>
    ((jsonVal.get? 2).bind Json.asF64).bind fun r2 =>
    ((jsonVal.get? 3).bind Json.asF64).bind fun r3 =>
    some ⟨ops.f64ToF32 r0, ops.f64ToF32 r1, ops.f64ToF32 r2, ops.f64ToF32 r3⟩

/-- Matrix decode without the leading field reads, dispatching on the
`innertype` string, from `matrix.rs::from_json` (lines 257-301): shapes
with three or four columns additionally require `columns.get(2)` /
`columns.get(3)`. -/
def matrixFromJsonInner (ops : FloatOps) (innerType : String)
    (columns : List Json) (c1 c2 : List Json) : Option MatrixUniformValue :=
  let c3a := (columns.get? 2).bind Json.asArray
  let c4a := (columns.get? 3).bind Json.asArray
  if innerType = "m2x2" then
    (Column2.fromJson ops c1).bind fun a =>
    (Column2.fromJson ops c2).map fun b => .M2x2 a b
  else if innerType = "m2x3" then
    (Column3.fromJson ops c1).bind fun a =>
    (Column3.fromJson ops c2).map fun b => .M2x3 a b
  else if innerType = "m2x4" then
    (Column4.fromJson ops c1).bind fun a =>
    (Column4.fromJson ops c2).map fun b => .M2x4 a b
  else if innerType = "m3x2" then
    c3a.bind fun c3 =>
    (Column2.fromJson ops c1).bind fun a =>
    (Column2.fromJson ops c2).bind fun b =>
    (Column2.fromJson ops c3).map fun c => .M3x2 a b c
  else if innerType = "m3x3" then
    c3a.bind fun c3 =>
    (Column3.fromJson ops c1).bind fun a =>
    (Column3.fromJson ops c2).bind fun b =>
    (Column3.fromJson ops c3).map fun c => .M3x3 a b c
  else if innerType = "m3x4" then
    c3a.bind fun c3 =>
    (Column4.fromJson ops c1).bind fun a =>
    (Column4.fromJson ops c2).bind fun b =>
    (Column4.fromJson ops c3).map fun c => .M3x4 a b c
  else if innerType = "m4x2" then
    c3a.bind fun c3 =>
    c4a.bind fun c4 =>
    (Column2.fromJson ops c1).bind fun a =>
    (Column2.fromJson ops c2).bind fun b =>
    (Column2.fromJson ops c3).bind fun c =>
    (Column2.fromJson ops c4).map fun d => .M4x2 a b c d
  else if innerType = "m4x3" then
    c3a.bind fun c3 =>
    c4a.bind fun c4 =>
    (Column3.fromJson ops c1).bind fun a =>
    (Column3.fromJson ops c2).bind fun b =>
    (Column3.fromJson ops c3).bind fun c =>
    (Column3.fromJson ops c4).map fun d => .M4x3 a b c d
  else if innerType = "m4x4" then
    c3a.bind fun c3 =>
    c4a.bind fun c4 =>
    (Column4.fromJson ops c1).bind fun a =>
    (Column4.fromJson ops c2).bind fun b =>
    (Column4.fromJson ops c3).bind fun c =>
    (Column4.fromJson ops c4).map fun d => .M4x4 a b c d
  else
    none

/-- Matrix decode, from `matrix.rs::from_json` (lines 257-301): reads
`columns`, its first two entries, and `innertype`. -/
def MatrixUniformValue.fromJson (ops : FloatOps)
    (uniform : List (String × Json)) : Option MatrixUniformValue :=
  ((jsonGet uniform "columns").bind Json.asArray).bind fun columns =>
  ((columns.get? 0).bind Json.asArray).bind fun c1 =>
  ((columns.get? 1).bind Json.asArray).bind fun c2 =>
  ((jsonGet uniform "innertype").bind Json.asStr).bind fun innerType =>
  matrixFromJsonInner ops innerType columns c1 c2

/-- Modelled from the spec: transform decode.  The transform branch of
the persistence mapping lives in the `uniform_types` module root, which
is absent from the snapshot; per the spec's external-interface section a
transform record "carries translation/scale/rotation", and malformed or
missing fields fail the load.  Field shapes follow the transform value:
three numbers of translation, three of scale, four of quaternion
rotation. -/
def TransformUniformValue.fromJson (ops : FloatOps)
    (uniform : List (String × Json)) : Option TransformUniformValue :=
  ((jsonGet uniform "translation").bind Json.asArray).bind fun tr =>
  ((jsonGet uniform "scale").bind Json.asArray).bind fun sc =>
  ((jsonGet uniform "rotation").bind Json.asArray).bind fun rot =>
  if tr.length = 3 ∧ sc.length = 3 ∧ rot.length = 4 then
    (tr.mapM Json.asF64).bind fun trv =>
    (sc.mapM Json.asF64).bind fun scv =>
    (rot.mapM Json.asF64).bind fun rotv =>
    some
      { translation :=
          ⟨ops.f64ToF32 (trv.getD 0 0), ops.f64ToF32 (trv.getD 1 0),
            ops.f64ToF32 (trv.getD 2 0)⟩
        xScale := ops.f64ToF32 (scv.getD 0 0)
        yScale := ops.f64ToF32 (scv.getD 1 0)
        zScale := ops.f64ToF32 (scv.getD 2 0)
        rotation :=
          ⟨ops.f64ToF32 (rotv.getD 3 0), ops.f64ToF32 (rotv.getD 0 0),
            ops.f64ToF32 (rotv.getD 1 0), ops.f64ToF32 (rotv.getD 2 0)⟩ }
  else
    none

/-- Modelled from the spec: built-in decode.  The builtin branch of the
persistence mapping lives in the `uniform_types` module root, absent
from the snapshot; per the spec a builtin record "carries `innertype`
(time|camera) + camera fields", and malformed or missing fields fail
the load. -/
def BuiltinValue.fromJson (ops : FloatOps)
    (uniform : List (String × Json)) : Option BuiltinValue :=
  ((jsonGet uniform "innertype").bind Json.asStr).bind fun innerType =>
  if innerType = "time" then
    some .Time
  else if innerType = "camera" then
    ((jsonGet uniform "position").bind Json.asArray).bind fun pos =>
    ((jsonGet uniform "yaw").bind Json.asF64).bind fun yaw =>
    ((jsonGet uniform "pitch").bind Json.asF64).bind fun pitch =>
    ((jsonGet uniform "enabled").bind Json.asBool).bind fun en =>
    if pos.length = 3 then
      (pos.mapM Json.asF64).bind fun pv =>
      some (.Camera
        ⟨ops.f64ToF32 (pv.getD 0 0), ops.f64ToF32 (pv.getD 1 0),
          ops.f64ToF32 (pv.getD 2 0)⟩
        (ops.f64ToF32 yaw) (ops.f64ToF32 pitch) en)
    else
      none
  else
    none

/-- Modelled from the spec: uniform-value decode dispatch.  The
`UniformValue::from_json` entry point lives in the `uniform_types`
module root, absent from the snapshot; per the spec the record's
`outer_type` is one of `builtin | scalar | vector | matrix | transform`
and dispatches to the per-family decoders (all of which except the
builtin and transform branches are embedded from the source above);
anything malformed fails the load. -/
def UniformValue.fromJson (ops : FloatOps)
    (uniform : List (String × Json)) : Option UniformValue :=
  ((jsonGet uniform "outer_type").bind Json.asStr).bind fun outer =>
  if outer = "builtin" then
    (BuiltinValue.fromJson ops uniform).map .BuiltIn
  else if outer = "scalar" then
    (ScalarUniformValue.fromJson ops uniform).map .Scalar
  else if outer = "vector" then
    (VectorUniformValue.fromJson ops uniform).map .Vector
  else if outer = "matrix" then
    (MatrixUniformValue.fromJson ops uniform).map .Matrix
  else if outer = "transform" then
    (TransformUniformValue.fromJson ops uniform).map .Transform
  else
    none

/-- Number of `Time` built-ins among a list of parsed bindings (the
`time_count` accumulator of `Uniforms::load`). -/
def countTime (bs : List UniformBinding) : Nat :=
  (bs.filter (fun b => b.value = UniformValue.BuiltIn .Time)).length

/-- Number of `Camera` built-ins among a list of parsed bindings (the
`camera_count` accumulator of `Uniforms::load`). -/
def countCamera (bs : List UniformBinding) : Nat :=
  (bs.filter (fun b =>
    match b.value with
    | .BuiltIn (.Camera _ _ _ _) => true
    | _ => false)).length

/-- One entry of a persisted group: `{name, value}`, from the inner loop
of `imgui_state.rs::Uniforms::load` (lines 677-688): read `name` as a
string, `value` as an object, decode the uniform, `add_custom` it and
set its name. -/
def parseUniformEntry (ops : FloatOps) (j : Json) : Option UniformBinding :=
  (j.asObject).bind fun fields =>
  ((jsonGet fields "name").bind Json.asStr).bind fun name =>
  ((jsonGet fields "value").bind Json.asObject).bind fun valueObj =>
  (UniformValue.fromJson ops valueObj).map fun v =>
  { UniformBinding.new ops v with name := name }

/-- One persisted group: an ordered array of entries, from the outer
loop of `imgui_state.rs::Uniforms::load` (lines 674-690): a fresh
`UniformGroup::new` (generation 1 after its initial bind-group build),
then `add_custom` per entry. -/
def parseGroup (ops : FloatOps) (j : Json) : Option BindingGroup :=
  (j.asArray).bind fun entries =>
  (entries.mapM (parseUniformEntry ops)).map fun bs =>
  bs.foldl (fun g b => ({ g with bindings := g.bindings ++ [b] }).refreshBindGroup)
    ⟨[], 0⟩

/-- Well-known-location pair read by `Uniforms::load`: the array's
first two entries, each `as_u64` (any non-number makes the load return
`None` after logging). -/
def parseLocPair (arr : List Json) : Option (Nat × Nat) :=
  (arr.get? 0).bind fun a0 =>
  (arr.get? 1).bind fun a1 =>
  (a0.asU64).bind fun x =>
  (a1.asU64).map fun y => (x, y)

/-- Location header of a persisted shader entry, from
`imgui_state.rs::Uniforms::load` (lines 642-667): the
`time_uniform_location` and `camera_uniform_location` arrays. -/
def parseLocations (shaderConf : List (String × Json)) :
    Option ((Nat × Nat) × (Nat × Nat)) :=
  ((jsonGet shaderConf "time_uniform_location").bind Json.asArray).bind fun tulArr =>
  ((jsonGet shaderConf "camera_uniform_location").bind Json.asArray).bind fun culArr =>
  (parseLocPair tulArr).bind fun tul =>
  (parseLocPair culArr).map fun cul => (tul, cul)

/-- Persistence load, from `imgui_state.rs::Uniforms::load` (lines
634-704), starting at the parsed `save.json` value (the file read and
the JSON parse are host I/O; their failures surface as `none` through
the caller below): select the shader entry, read the two well-known
locations, parse the ordered groups, and reject the result unless it
contains exactly one Time and one Camera built-in. -/
def Uniforms.load (ops : FloatOps) (config : Json) (shaderName : String) :
    Option Uniforms :=
  (config.asObject).bind fun cfg =>
  ((jsonGet cfg shaderName).bind Json.asObject).bind fun shaderConf =>
  (parseLocations shaderConf).bind fun locs =>
  ((jsonGet shaderConf "groups").bind Json.asArray).bind fun jsonGroups =>
  (jsonGroups.mapM (parseGroup ops)).bind fun groups =>
  if countTime (groups.flatMap (fun g => g.bindings)) = 1
      ∧ countCamera (groups.flatMap (fun g => g.bindings)) = 1 then
    some
      { groups := groups
        timeUniformLocation := locs.1
        cameraUniformLocation := locs.2 }
  else
    none

/-- Uniform reload entry point, from
`imgui_state.rs::UiState::load_uniforms` (lines 949-954): the parsed
configuration (or `none` when the file is missing or unparsable) goes
through `Uniforms::load`; on any failure a fresh default set is
substituted. -/
def loadUniforms (ops : FloatOps) (config : Option Json)
    (shaderName : String) : Uniforms :=
  match config.bind (fun c => Uniforms.load ops c shaderName) with
  | some inputs => inputs
  | none => Uniforms.new ops

/-- Sanity check mirroring the `assert_eq!` block of
`change_binding_size`: the table holds the expected variant at each of
the nine sizes and has exactly 65 entries. -/
theorem sizeTable_matches_source_asserts :
    DEFAULT_SIZEN_TYPE.get? 4 = some (some (.Scalar .F32))
      ∧ DEFAULT_SIZEN_TYPE.get? 8 = some (some (.Vec (.Vec2 .F32)))
      ∧ DEFAULT_SIZEN_TYPE.get? 12 = some (some (.Vec (.Vec3 .F32)))
      ∧ DEFAULT_SIZEN_TYPE.get? 16 = some (some (.Vec (.Vec4 .F32)))
      ∧ DEFAULT_SIZEN_TYPE.get? 24 = some (some (.Matrix .M2x3))
      ∧ DEFAULT_SIZEN_TYPE.get? 32 = some (some (.Matrix .M2x4))
      ∧ DEFAULT_SIZEN_TYPE.get? 36 = some (some (.Matrix .M3x3))
      ∧ DEFAULT_SIZEN_TYPE.get? 48 = some (some (.Matrix .M3x4))
      ∧ DEFAULT_SIZEN_TYPE.get? 64 = some (some (.Matrix .M4x4))
      ∧ DEFAULT_SIZEN_TYPE.length = 65 := by
  decide

/-- C2: the claim states `Transform::to_le_bytes` produces exactly 64
bytes (the resolved 4x4 matrix).  The code instead serializes the
resolved matrix through `Byteable for Matrix4<f32>`, which returns the
bytes of the FIRST COLUMN only: every transform encodes to 16 bytes,
whatever the host float math yields for the resolved matrix. -/
theorem transform_encode_is_first_column_16_bytes :
    ∀ (ops : FloatOps) (t : TransformUniformValue),
      t.toLeBytes ops = (ops.resolveTransform t).x.toLeBytes
        ∧ (t.toLeBytes ops).length = 16 := by
  intro ops t
  exact ⟨rfl, rfl⟩

/-- C3: the claim states a Vector-to-Vector cast preserves the first
`min(old, new)` components and zero-fills new ones; in particular a
Vec3/Vec4 cast to a same-or-larger vector keeps z (and w).  The code
stages all the cast components but reassembles the target from slots
`(0, 1, 0)` / `(0, 1, 0, 1)`: `Vec3(1,2,3)` cast to `Vec3<u32>` yields
`(1, 2, 1)` and `Vec4(1,2,3,4)` cast to `Vec4<u32>` yields
`(1, 2, 1, 2)` — z and w are lost even at the identical vector type,
and a Vec2 cast to Vec3 gets `x` (not zero) as its new component. -/
theorem vector_cast_rebuilds_z_w_from_x_y :
    ∀ ops : FloatOps,
      Vec3UniformValue.castToVec ops (.U32 1 2 3) (.Vec3 .U32)
          = .Vec3 (.U32 1 2 1)
        ∧ Vec4UniformValue.castToVec ops (.U32 1 2 3 4) (.Vec4 .U32)
          = .Vec4 (.U32 1 2 1 2)
        ∧ (UniformValue.Vector (.Vec3 (.U32 1 2 3))).castTo ops
            (.Vec (.Vec3 .U32))
          = some (.Vector (.Vec3 (.U32 1 2 1)))
        ∧ Vec2UniformValue.castToVec ops (.U32 7 8) (.Vec3 .U32)
          = .Vec3 (.U32 7 8 7) := by
  intro ops
  exact ⟨rfl, rfl, rfl, rfl⟩

/-- C10: `decrease` on a `Scalar(U32)` binding performs the unchecked
`*v -= 1` and writes the result in place: at `U32(0)` the value wraps
to `2^32 - 1 = 4294967295` (release semantics; debug builds abort on
the overflow) instead of clamping at 0. -/
theorem decrease_u32_zero_wraps :
    ∀ ops : FloatOps,
      UniformBinding.decrease ops
          (UniformBinding.new ops (.Scalar (.U32 0)))
        = some
            { value := .Scalar (.U32 4294967295)
              name := "unnamed"
              bufData := u32le 4294967295 }
        ∧ (4294967295 : Nat) ≠ 0 := by
  intro ops
  exact ⟨rfl, by decide⟩

/-- C1 (failing input): the claim states every encoded-length change
reallocates the buffer.  `change_matrix_size` on a binding holding a
2x2 matrix (16-byte buffer) resized to 4x4 writes the 64-byte encoding
into the existing 16-byte buffer: the device write is out of bounds and
the `unwrap` aborts — no reallocation path exists in that operation. -/
theorem change_matrix_size_writes_in_place_and_aborts :
    ∀ ops : FloatOps,
      UniformBinding.changeMatrixSize ops
          (UniformBinding.new ops (.Matrix (MatrixType.M2x2.zeroMatrix)))
          .M4x4
        = none
        ∧ ((UniformValue.Matrix (MatrixType.M4x4.zeroMatrix)).toLeBytes ops).length
          = 64
        ∧ ((UniformBinding.new ops
            (.Matrix (MatrixType.M2x2.zeroMatrix))).bufData).length = 16 := by
  intro ops
  exact ⟨rfl, rfl, rfl⟩

/-- Positive counterpart for the type-change path: `change_type` keeps
the buffer size equal to the encoded length — when the encoded length
changes it installs a freshly sized buffer, otherwise it writes the
same-size bytes in place. -/
theorem change_type_preserves_size_invariant :
    ∀ (ops : FloatOps) (b : UniformBinding) (t : UniformType)
      (b2 : UniformBinding),
      b.bufData.length = (b.value.toLeBytes ops).length →
      b.changeType ops t = some b2 →
      b2.bufData.length = (b2.value.toLeBytes ops).length := by
  intro ops b t b2 hinv h
  unfold UniformBinding.changeType at h
  cases hc : b.value.castTo ops t with
  | none => rw [hc] at h; simp at h
  | some nv =>
    rw [hc] at h
    simp only [Option.bind_eq_bind, Option.some_bind] at h
    by_cases hlen : (nv.toLeBytes ops).length = (b.value.toLeBytes ops).length
    · rw [if_neg (by simpa using hlen)] at h
      unfold writeBuffer at h
      rw [if_pos (by omega)] at h
      simp only [Option.some_bind, Option.some.injEq] at h
      subst h
      simp only [List.length_append, List.length_take, List.length_drop,
        List.take_nil]
      omega
    · rw [if_pos (by simpa using hlen)] at h
      simp only [Option.some.injEq] at h
      subst h
      rfl

/-- C4 (counterexample): the claim states an unrepairable pipeline
validation error is surfaced to the user as text with the previous
pipeline kept and the process not aborting.  At the concrete input
`WrongBufferSize` (any category other than a missing binding behaves
identically) the handler's match arm is a `todo` macro invocation, i.e.
the outcome is a process abort; likewise a draw-time undersized-binding
repair with an unmatched required size (20) aborts in the double
`unwrap` of the size-table lookup. -/
theorem unrepairable_error_aborts_at_wrong_buffer_size :
    handlePipelineErr (.Stage (.Binding 0 0 .WrongBufferSize)) = .panicAbort
      ∧ PipelineErrOutcome.panicAbort ≠ .repairMissing 0 0
      ∧ sizeTableLookup 20 = none
      ∧ UniformBinding.changeBindingSize trivOps
          (UniformBinding.new trivOps DEFAULT_UNIFORM) 20 = none := by
  refine ⟨rfl, by decide, by decide, rfl⟩

/-- C4 (amended): when a pipeline build fails with any category other
than `MissingBinding`, or a repair is attempted for an undersized
binding whose required size matches no entry of the size table, the
process aborts (the handler arm is a `todo` macro invocation / the
table lookup unwraps `None`); no error text is surfaced by this path
and no pipeline replacement happens. -/
theorem unrepairable_pipeline_error_panics :
    (∀ e : CreateRenderPipelineErr,
        e.isRepairable = false → handlePipelineErr e = .panicAbort)
      ∧ (∀ (ops : FloatOps) (b : UniformBinding) (s : Nat),
        sizeTableLookup s = none → b.changeBindingSize ops s = none) := by
  constructor
  · intro e h
    cases e with
    | Stage se =>
      cases se with
      | Binding g b be =>
        cases be with
        | Missing => simp [CreateRenderPipelineErr.isRepairable] at h
        | _ => rfl
      | _ => rfl
    | _ => rfl
  · intro ops b s h
    unfold UniformBinding.changeBindingSize
    rw [h]
    rfl

/-- C4 (witness): the amended theorem applied at the concrete inputs
`InvalidLayout` and size 20. -/
theorem unrepairable_pipeline_error_panics_witness :
    handlePipelineErr .InvalidLayout = .panicAbort
      ∧ UniformBinding.changeBindingSize trivOps
          (UniformBinding.new trivOps DEFAULT_UNIFORM) 20 = none := by
  exact ⟨unrepairable_pipeline_error_panics.1 .InvalidLayout rfl,
    unrepairable_pipeline_error_panics.2 trivOps
      (UniformBinding.new trivOps DEFAULT_UNIFORM) 20 (by decide)⟩

/-- Concrete camera value with distinguishable matrices, used to refute
the claimed camera encoding. -/
def cameraExample : CameraUniform :=
  { position := ⟨9, 9, 9⟩
    viewMatrix := ⟨⟨2, 2, 2, 2⟩, ⟨2, 2, 2, 2⟩, ⟨2, 2, 2, 2⟩, ⟨2, 2, 2, 2⟩⟩
    projectionMatrix := ⟨⟨1, 1, 1, 1⟩, ⟨1, 1, 1, 1⟩, ⟨1, 1, 1, 1⟩, ⟨1, 1, 1, 1⟩⟩
    inverseViewMatrix := ⟨⟨3, 3, 3, 3⟩, ⟨3, 3, 3, 3⟩, ⟨3, 3, 3, 3⟩, ⟨3, 3, 3, 3⟩⟩
    inverseProjectionMatrix :=
      ⟨⟨4, 4, 4, 4⟩, ⟨4, 4, 4, 4⟩, ⟨4, 4, 4, 4⟩, ⟨4, 4, 4, 4⟩⟩ }

/-- C5 (counterexample): the claim states `CameraUniform::to_le_bytes`
produces exactly 80 bytes with the view matrix first.  At a concrete
camera the encoding is 272 bytes (16 for the padded position plus four
64-byte matrices), and the first matrix block is the projection matrix,
not the view matrix. -/
theorem camera_encoding_is_272_bytes_not_80 :
    cameraExample.toLeBytes.length = 272
      ∧ (272 : Nat) ≠ 80
      ∧ (cameraExample.toLeBytes.drop 16).take 64
        = getMatrix4Bytes cameraExample.projectionMatrix
      ∧ (cameraExample.toLeBytes.drop 16).take 64
        ≠ getMatrix4Bytes cameraExample.viewMatrix := by
  refine ⟨by decide, by decide, by decide, by decide⟩

/-- C5 (amended): for every camera value the encoding is exactly 272
bytes — the position padded to 16 bytes followed by the projection,
view, inverse-view and inverse-projection matrices, 64 bytes each. -/
theorem camera_encoding_layout :
    ∀ c : CameraUniform,
      c.toLeBytes.length = 272
        ∧ c.toLeBytes
          = (f32le c.position.x ++ f32le c.position.y ++ f32le c.position.z
              ++ [0, 0, 0, 0])
            ++ getMatrix4Bytes c.projectionMatrix
            ++ getMatrix4Bytes c.viewMatrix
            ++ getMatrix4Bytes c.inverseViewMatrix
            ++ getMatrix4Bytes c.inverseProjectionMatrix
        ∧ (f32le c.position.x ++ f32le c.position.y ++ f32le c.position.z
            ++ [0, 0, 0, 0]).length = 16
        ∧ ∀ m : Matrix4, (getMatrix4Bytes m).length = 64 := by
  intro c
  refine ⟨?_, rfl, rfl, fun m => rfl⟩
  simp [CameraUniform.toLeBytes, getMatrix4Bytes, getVec4Bytes, f32le, u32le]

/-- C6 (counterexample): the claim states every `f32` outside the `u32`
range casts to 0.  The value `5e9_f32` (which holds exactly the integer
5000000000, above `u32::MAX = 4294967295`) saturates to `i32::MAX` in
the first step of the two-step conversion and therefore casts to
2147483647, not 0. -/
theorem cast_five_billion_f32_to_u32_is_i32_max :
    cast_f32_u32_int 5000000000 = 2147483647
      ∧ (4294967295 : Int) < 5000000000
      ∧ (2147483647 : Nat) ≠ 0 := by
  refine ⟨by decide, by decide, by decide⟩

/-- C6 (amended): the scalar casts to `u32` behave as follows — a
negative `i32` falls back to 0; an `f32` holding a negative value falls
back to 0; an `f32` holding a nonnegative integer value casts to
`min v i32::MAX` via the two-step route through `i32` (so values above
`i32::MAX`, including everything above the `u32` range, saturate to
2147483647 rather than falling back to 0). -/
theorem cast_to_u32_fallback_behaviour :
    (∀ w : Int, w < 0 → cast_i32_u32 w = 0)
      ∧ (∀ v : Int, v < 0 → cast_f32_u32_int v = 0)
      ∧ (∀ v : Int, 0 ≤ v →
        (cast_f32_u32_int v : Int) = min v 2147483647) := by
  refine ⟨?_, ?_, ?_⟩
  · intro w h
    simp [cast_i32_u32, h]
  · intro v h
    simp only [cast_f32_u32_int, rustF32AsI32Int]
    rw [if_pos (by omega)]
  · intro v h
    simp only [cast_f32_u32_int, rustF32AsI32Int]
    rw [if_neg (by omega)]
    omega

/-- C6 (witness): the amended theorem applied at `-7_i32`, `-3.0_f32`
and `5e9_f32`. -/
theorem cast_to_u32_fallback_behaviour_witness :
    cast_i32_u32 (-7) = 0
      ∧ cast_f32_u32_int (-3) = 0
      ∧ (cast_f32_u32_int 5000000000 : Int) = min 5000000000 2147483647 := by
  exact ⟨cast_to_u32_fallback_behaviour.1 (-7) (by decide),
    cast_to_u32_fallback_behaviour.2.1 (-3) (by decide),
    cast_to_u32_fallback_behaviour.2.2 5000000000 (by decide)⟩

/-- Behaviour of `define_binding`'s append loop: afterwards the index
exists (`n < len`), the original bindings survive as a prefix, and
everything appended is the default `Scalar(F32 = 0.0)` binding. -/
theorem defineBinding_spec (ops : FloatOps) :
    ∀ (k : Nat) (g : BindingGroup) (n : Nat),
      n + 1 - g.bindings.length ≤ k →
      n < (g.defineBinding ops n).bindings.length
        ∧ ∃ t, (g.defineBinding ops n).bindings = g.bindings ++ t
          ∧ ∀ b ∈ t, b = UniformBinding.new ops DEFAULT_UNIFORM := by
  intro k
  induction k with
  | zero =>
    intro g n h
    rw [BindingGroup.defineBinding]
    have hlt : ¬ n ≥ g.bindings.length := by omega
    rw [if_neg hlt]
    exact ⟨by omega, [], by simp, by simp⟩
  | succ k ih =>
    intro g n h
    rw [BindingGroup.defineBinding]
    by_cases hc : n ≥ g.bindings.length
    · rw [if_pos hc]
      have hlen : (g.addF32 ops).bindings.length = g.bindings.length + 1 := by
        simp [BindingGroup.addF32, BindingGroup.refreshBindGroup]
      obtain ⟨h1, t, h2, h3⟩ := ih (g.addF32 ops) n (by omega)
      refine ⟨h1, (UniformBinding.new ops DEFAULT_UNIFORM) :: t, ?_, ?_⟩
      · rw [h2]
        simp [BindingGroup.addF32, BindingGroup.refreshBindGroup]
      · intro b hb
        cases hb with
        | head => rfl
        | tail _ hb => exact h3 b hb
    · rw [if_neg hc]
      exact ⟨by omega, [], by simp, by simp⟩

/-- C8: `define_binding(N)` appends default `Scalar(F32 = 0.0)` bindings
while `N >= len`, so after one call the length exceeds `N`; a second
call with the same `N` fails its loop guard immediately and returns the
group unchanged — same length, same handle generation, every existing
binding value untouched (the first call only ever appends). -/
theorem defineBinding_idempotent :
    ∀ (ops : FloatOps) (g : BindingGroup) (n : Nat),
      (g.defineBinding ops n).defineBinding ops n = g.defineBinding ops n
        ∧ n < (g.defineBinding ops n).bindings.length
        ∧ ∃ t, (g.defineBinding ops n).bindings = g.bindings ++ t
          ∧ ∀ b ∈ t, b = UniformBinding.new ops DEFAULT_UNIFORM := by
  intro ops g n
  obtain ⟨h1, t, h2, h3⟩ :=
    defineBinding_spec ops (n + 1 - g.bindings.length) g n (le_refl _)
  refine ⟨?_, h1, t, h2, h3⟩
  rw [BindingGroup.defineBinding]
  rw [if_neg (by omega)]

/-- C9: when `update_time(elapsedMillis)` succeeds, the binding at the
stored time location exists and its value is asserted to be
`BuiltIn(Time)`; the new state differs from the old only in that
binding's buffer, whose first 4 bytes become the little-endian elapsed
milliseconds — same buffer (no reallocation), no value change, no
membership change, no handle regeneration, locations untouched. -/
theorem update_time_writes_4_bytes_only :
    ∀ (u : Uniforms) (e : Nat) (u2 : Uniforms),
      u.updateTime e = some u2 →
      ∃ grp bindg,
        u.groups.get? u.timeUniformLocation.1 = some grp
          ∧ grp.bindings.get? u.timeUniformLocation.2 = some bindg
          ∧ bindg.value = .BuiltIn .Time
          ∧ (u32le e).length = 4
          ∧ u2 = { u with
              groups := u.groups.set u.timeUniformLocation.1
                { grp with
                  bindings := grp.bindings.set u.timeUniformLocation.2
                    { bindg with
                      bufData := u32le e ++ bindg.bufData.drop 4 } } }
          ∧ u2.timeUniformLocation = u.timeUniformLocation
          ∧ u2.cameraUniformLocation = u.cameraUniformLocation
          ∧ u2.groups.length = u.groups.length
          ∧ (∀ gi, (u2.groups.get? gi).map (fun g => g.bindings.length)
              = (u.groups.get? gi).map (fun g => g.bindings.length))
          ∧ (∀ gi, (u2.groups.get? gi).map BindingGroup.bindGroupGen
              = (u.groups.get? gi).map BindingGroup.bindGroupGen)
          ∧ (∀ gi bi,
              ((u2.groups.get? gi).bind (fun g => g.bindings.get? bi)).map
                  UniformBinding.value
                = ((u.groups.get? gi).bind (fun g => g.bindings.get? bi)).map
                  UniformBinding.value)
          ∧ (∀ gi bi,
              ((u2.groups.get? gi).bind (fun g => g.bindings.get? bi)).map
                  UniformBinding.name
                = ((u.groups.get? gi).bind (fun g => g.bindings.get? bi)).map
                  UniformBinding.name) := by
  intro u e u2 h
  unfold Uniforms.updateTime at h
  simp only [Option.bind_eq_bind, Option.bind_eq_some] at h
  obtain ⟨grp, hg, bindg, hb, h⟩ := h
  rw [apply_ite (fun o => o = some u2)] at h
  by_cases hv : bindg.value = UniformValue.BuiltIn .Time
  case neg => simp [hv] at h
  rw [if_pos hv] at h
  unfold writeBuffer at h
  by_cases hle : 0 + (u32le e).length ≤ bindg.bufData.length
  case neg => rw [if_neg hle] at h; simp at h
  rw [if_pos hle] at h
  simp only [Option.bind_eq_bind, Option.some_bind, Option.some.injEq] at h
  have hu2 : u2 = { u with
      groups := u.groups.set u.timeUniformLocation.1
        { grp with
          bindings := grp.bindings.set u.timeUniformLocation.2
            { bindg with bufData := u32le e ++ bindg.bufData.drop 4 } } } := by
    rw [← h]
    simp [u32le]
  refine ⟨grp, bindg, hg, hb, hv, rfl, hu2, by rw [hu2], by rw [hu2], ?_, ?_, ?_, ?_, ?_⟩
  · rw [hu2]; simp
  · intro gi
    rw [hu2]
    by_cases hgi : u.timeUniformLocation.1 = gi
    · subst hgi
      rw [List.get?_set_eq_of_lt _ (by exact List.get?_eq_some.mp hg |>.choose), hg]
      simp
    · rw [List.get?_set_ne _ _ hgi]
  · intro gi
    rw [hu2]
    by_cases hgi : u.timeUniformLocation.1 = gi
    · subst hgi
      rw [List.get?_set_eq_of_lt _ (by exact List.get?_eq_some.mp hg |>.choose), hg]
      simp [BindingGroup.bindGroupGen]
    · rw [List.get?_set_ne _ _ hgi]
  · intro gi bi
    rw [hu2]
    by_cases hgi : u.timeUniformLocation.1 = gi
    · subst hgi
      rw [List.get?_set_eq_of_lt _ (by exact List.get?_eq_some.mp hg |>.choose), hg]
      simp only [Option.some_bind]
      by_cases hbi : u.timeUniformLocation.2 = bi
      · subst hbi
        rw [List.get?_set_eq_of_lt _ (by exact List.get?_eq_some.mp hb |>.choose), hb]
        simp
      · rw [List.get?_set_ne _ _ hbi]
    · rw [List.get?_set_ne _ _ hgi]
  · intro gi bi
    rw [hu2]
    by_cases hgi : u.timeUniformLocation.1 = gi
    · subst hgi
      rw [List.get?_set_eq_of_lt _ (by exact List.get?_eq_some.mp hg |>.choose), hg]
      simp only [Option.some_bind]
      by_cases hbi : u.timeUniformLocation.2 = bi
      · subst hbi
        rw [List.get?_set_eq_of_lt _ (by exact List.get?_eq_some.mp hb |>.choose), hb]
        simp
      · rw [List.get?_set_ne _ _ hbi]
    · rw [List.get?_set_ne _ _ hgi]

/-- State produced by updating the time of the startup binding set to
123 ms (with the trivial host operations). -/
def updateTimeExample : Uniforms :=
  ((Uniforms.new trivOps).updateTime 123).getD (Uniforms.new trivOps)

/-- C9 (witness): `update_time` applied to the startup set at 123 ms
succeeds, and the theorem instantiates there. -/
theorem update_time_writes_4_bytes_only_witness :
    (Uniforms.new trivOps).updateTime 123 = some updateTimeExample
      ∧ updateTimeExample.timeUniformLocation
        = (Uniforms.new trivOps).timeUniformLocation := by
  have h : (Uniforms.new trivOps).updateTime 123 = some updateTimeExample := rfl
  obtain ⟨grp, bindg, h1, h2, h3, h4, h5, h6, h7⟩ :=
    update_time_writes_4_bytes_only (Uniforms.new trivOps) 123
      updateTimeExample h
  exact ⟨h, h6⟩

/-- C7: a persisted `BindingSet` loads successfully only when the decoded
set contains exactly one Time and one Camera built-in (the count guard
is the final check of `Uniforms::load`); and whenever the load pipeline
yields nothing — missing/unparsable file, any structural failure, or
that guard failing — the caller `load_uniforms` substitutes a fresh
default set, so loading never aborts the application. -/
theorem load_requires_exactly_one_time_and_camera :
    (∀ (ops : FloatOps) (cfg : Json) (name : String) (u : Uniforms),
      Uniforms.load ops cfg name = some u →
      countTime (u.groups.flatMap (fun g => g.bindings)) = 1
        ∧ countCamera (u.groups.flatMap (fun g => g.bindings)) = 1)
      ∧ (∀ (ops : FloatOps) (cfg : Option Json) (name : String),
        cfg.bind (fun c => Uniforms.load ops c name) = none →
        loadUniforms ops cfg name = Uniforms.new ops) := by
  constructor
  · intro ops cfg name u h
    unfold Uniforms.load at h
    simp only [Option.bind_eq_some] at h
    obtain ⟨cfgObj, hcfg, h⟩ := h
    obtain ⟨shaderConf, ⟨shRaw, hshRaw, hshObj⟩, h⟩ := h
    obtain ⟨locs, hlocs, h⟩ := h
    obtain ⟨jsonGroups, ⟨jgRaw, hjgRaw, hjgArr⟩, h⟩ := h
    obtain ⟨groups, hgroups, h⟩ := h
    by_cases hcond :
        countTime (groups.flatMap (fun g => g.bindings)) = 1
          ∧ countCamera (groups.flatMap (fun g => g.bindings)) = 1
    · rw [if_pos hcond] at h
      simp only [Option.some.injEq] at h
      subst h
      exact hcond
    · rw [if_neg hcond] at h
      simp at h
  · intro ops cfg name h
    unfold loadUniforms
    rw [h]

/-- Persisted configuration holding one shader entry `"s"` with exactly
one Time and one Camera built-in, used to instantiate the load
theorem. -/
def c7ExampleJson : Json :=
  .obj [("s", .obj
    [ ("time_uniform_location", .arr [.num 0, .num 0])
    , ("camera_uniform_location", .arr [.num 1, .num 0])
    , ("groups", .arr
        [ .arr [.obj
            [ ("name", .str "t")
            , ("value", .obj
                [("outer_type", .str "builtin"), ("innertype", .str "time")])
            ]]
        , .arr [.obj
            [ ("name", .str "c")
            , ("value", .obj
                [ ("outer_type", .str "builtin")
                , ("innertype", .str "camera")
                , ("position", .arr [.num 0, .num 0, .num 0])
                , ("yaw", .num 0)
                , ("pitch", .num 0)
                , ("enabled", .bool false)
                ])
            ]]
        ])
    ])]

/-- Binding set decoded from the example configuration. -/
def c7LoadedResult : Uniforms :=
  (Uniforms.load trivOps c7ExampleJson "s").getD (Uniforms.new trivOps)

/-- C7 (witness): the example configuration loads, the loaded set counts
exactly one Time and one Camera, and a failing pipeline (no parsed
file) falls back to the fresh default set. -/
theorem load_requires_exactly_one_time_and_camera_witness :
    Uniforms.load trivOps c7ExampleJson "s" = some c7LoadedResult
      ∧ countTime (c7LoadedResult.groups.flatMap (fun g => g.bindings)) = 1
      ∧ countCamera (c7LoadedResult.groups.flatMap (fun g => g.bindings)) = 1
      ∧ loadUniforms trivOps none "s" = Uniforms.new trivOps := by
  have h : Uniforms.load trivOps c7ExampleJson "s" = some c7LoadedResult := rfl
  obtain ⟨h1, h2⟩ :=
    load_requires_exactly_one_time_and_camera.1 trivOps c7ExampleJson "s"
      c7LoadedResult h
  exact ⟨h, h1, h2,
    load_requires_exactly_one_time_and_camera.2 trivOps none "s" rfl⟩
